import Mathlib

/-!
Verification of the DX-Ball gameplay core (src/main.cpp) against its
specification.

The C++ source is embedded shallowly:

* float arithmetic is modelled exactly over the rationals ℚ;
* the square root used by the in-game collision and reflection code is kept
  abstract as a parameter `sq : ℚ → ℚ` of the game-step functions — none of
  the game-level theorems below depend on its values, so they hold for the
  true square root in particular;
* the pure geometric primitives `aabbCircleCollision` and `reflectBall`,
  whose claims are genuinely about square roots, are additionally embedded
  over ℝ with `Real.sqrt`;
* the process-wide RNG stream consumed by perk rolls is modelled as a list
  of rationals carried in the state (a draw from an exhausted list yields 1,
  which triggers no spawn; theorems quantify over streams long enough that
  this default is never reached);
* `std::exit(0)` on the menu EXIT item terminates the process; it is
  modelled as the identity transition (no further state changes occur);
* the wall-clock playtime accounting (`nowSec`, `startTime`, `lastTick`)
  lives in the rendering layer, outside the simulation core; `playTime` is
  carried as a state field (reset by `newGame`) since history records store
  it, but no claim depends on its accrual.
-/

set_option linter.unusedVariables false

namespace DXBall

/-- clampv from the source: `(v < lo) ? lo : (v > hi) ? hi : v`. -/
def clampv {α : Type} [LinearOrder α] (v lo hi : α) : α :=
  if v < lo then lo else if hi < v then hi else v

/-- Vec2 over ℚ (the source struct with float fields). -/
structure Vec2 where
  x : ℚ
  y : ℚ
deriving DecidableEq

/-- operator+ on Vec2. -/
def vadd (a b : Vec2) : Vec2 := ⟨a.x + b.x, a.y + b.y⟩

/-- operator* (scalar) on Vec2. -/
def vscale (a : Vec2) (s : ℚ) : Vec2 := ⟨a.x * s, a.y * s⟩

/-- dot from the source. -/
def vdot (a b : Vec2) : ℚ := a.x * b.x + a.y * b.y

/-- normalize from the source, with the square root of the squared length
abstracted as `sq`: `L = length(a); (L > 1e-6) ? a/L : (1,0)`. -/
def normalizeQ (sq : ℚ → ℚ) (a : Vec2) : Vec2 :=
  let L := sq (vdot a a)
  if 1/1000000 < L then ⟨a.x / L, a.y / L⟩ else ⟨1, 0⟩

/-- Screen enum, in source declaration order. -/
inductive Screen
| MENU
| PLAY
| PAUSE
| HELP
| HIGHSCORES
| WIN
| GAMEOVER
deriving DecidableEq

/-- PerkType enum, in source declaration order. -/
inductive PerkType
| EXTRA_LIFE
| SPEED_UP
| WIDE_PADDLE
| SHRINK_PADDLE
| THROUGH_BALL
| FIREBALL
| INSTANT_DEATH
| SHOOTING_PADDLE
deriving DecidableEq

/-- declaration index of a PerkType constructor (position in the C++ enum). -/
def PerkType.declIdx : PerkType → ℕ
| .EXTRA_LIFE => 0
| .SPEED_UP => 1
| .WIDE_PADDLE => 2
| .SHRINK_PADDLE => 3
| .THROUGH_BALL => 4
| .FIREBALL => 5
| .INSTANT_DEATH => 6
| .SHOOTING_PADDLE => 7

structure Brick where
  x : ℚ
  y : ℚ
  w : ℚ
  h : ℚ
  alive : Bool
  hp : ℤ
  r : ℚ
  g : ℚ
  b : ℚ
  score : ℤ
deriving DecidableEq

structure Perk where
  pos : Vec2
  vel : Vec2
  size : ℚ
  type : PerkType
  alive : Bool
deriving DecidableEq

structure Bullet where
  pos : Vec2
  vel : Vec2
  w : ℚ
  h : ℚ
  alive : Bool
deriving DecidableEq

structure Ball where
  pos : Vec2
  vel : Vec2
  speed : ℚ
  radius : ℚ
  stuck : Bool
  through : Bool
  throughTimer : ℚ
  fireball : Bool
  fireballTimer : ℚ
deriving DecidableEq

structure Paddle where
  pos : Vec2
  w : ℚ
  h : ℚ
  speed : ℚ
  widthTimer : ℚ
  shooting : Bool
  shootingTimer : ℚ
deriving DecidableEq

/-- Run history record `{float t; int s;}`. -/
structure Run where
  t : ℚ
  s : ℤ
deriving DecidableEq

/-- The file-scope mutable state of the program, gathered in one record. -/
structure GS where
  current : Screen
  bricks : List Brick
  perks : List Perk
  bullets : List Bullet
  ball : Ball
  paddle : Paddle
  lives : ℤ
  score : ℤ
  playTime : ℚ
  leftHeld : Bool
  rightHeld : Bool
  hasLaunched : Bool
  canResume : Bool
  menuIndex : ℤ
  pauseMenuIndex : ℤ
  globalSpeedGain : ℚ
  history : List Run
  rng : List ℚ
  scrW : ℚ
  scrH : ℚ
deriving DecidableEq

def MAX_LIVES : ℤ := 5

/-- saveHighScore: `history.push_back({playTime, score})`. -/
def saveHighScore (s : GS) : GS :=
  {s with history := s.history ++ [⟨s.playTime, s.score⟩]}

/-- resetBallOnPaddle from the source. -/
def resetBallOnPaddle (s : GS) : GS :=
  {s with hasLaunched := false,
          ball := {s.ball with
            stuck := true,
            through := false, throughTimer := 0,
            fireball := false, fireballTimer := 0,
            speed := 320 + s.globalSpeedGain,
            pos := ⟨s.paddle.pos.x, s.paddle.pos.y + s.paddle.h/2 + s.ball.radius + 1⟩,
            vel := ⟨0, 1⟩}}

/-- the colors table of buildBricks, indexed by `r % 7`. -/
def brickColor (r : ℕ) : ℚ × ℚ × ℚ :=
  match r % 7 with
  | 0 => (9/10, 2/10, 4/10)
  | 1 => (9/10, 6/10, 1/10)
  | 2 => (9/10, 9/10, 2/10)
  | 3 => (2/10, 8/10, 4/10)
  | 4 => (2/10, 6/10, 9/10)
  | 5 => (5/10, 3/10, 9/10)
  | _ => (8/10, 8/10, 8/10)

/-- buildBricks from the source with its default rows=7, cols=12. -/
def buildBricks (scrW scrH : ℚ) : List Brick :=
  let marginX : ℚ := 70
  let marginY : ℚ := 100
  let gap : ℚ := 6
  let areaW := scrW - 2*marginX
  let bw := (areaW - 11*gap)/12
  let bh : ℚ := 22
  (List.range 7).flatMap (fun r =>
    (List.range 12).map (fun c =>
      { x := marginX + (c : ℚ)*(bw+gap) + bw/2,
        y := scrH - marginY - (r : ℚ)*(bh+gap) - bh/2,
        w := bw, h := bh, alive := true,
        hp := if r < 2 then 2 else 1,
        r := (brickColor r).1, g := (brickColor r).2.1, b := (brickColor r).2.2,
        score := 50 + 10*(r : ℤ) }))

/-- newGame from the source. -/
def newGame (s : GS) : GS :=
  let s1 := {s with
    score := 0, lives := 3, globalSpeedGain := 0,
    perks := [], bullets := [],
    paddle := {pos := ⟨s.scrW/2, 48⟩, w := 120, h := 16, speed := 630,
               widthTimer := 0, shooting := false, shootingTimer := 0},
    ball := {s.ball with
      radius := 9, speed := 320, stuck := true,
      through := false, fireball := false}}
  let s2 := resetBallOnPaddle s1
  {s2 with bricks := buildBricks s2.scrW s2.scrH, playTime := 0,
           current := Screen.PLAY, canResume := true}

/-- exitToMenu from the source. -/
def exitToMenu (s : GS) : GS :=
  let s1 := {s with perks := [], bullets := [], bricks := [], score := 0, lives := 3,
                    globalSpeedGain := 0,
                    paddle := {s.paddle with pos := ⟨s.scrW/2, 48⟩, w := 120, h := 16},
                    ball := {s.ball with radius := 9, speed := 320}}
  let s2 := resetBallOnPaddle s1
  {s2 with canResume := false, current := Screen.MENU, pauseMenuIndex := 0}

/-- one call of `u01(rng)` on the modelled stream. -/
def draw (s : GS) : ℚ × GS :=
  match s.rng with
  | [] => (1, s)
  | q :: rest => (q, {s with rng := rest})

/-- the type-selection if-chain inside maybeSpawnPerk. -/
def perkTypeFor (r : ℚ) : PerkType :=
  if r < 18/100 then .EXTRA_LIFE
  else if r < 36/100 then .SPEED_UP
  else if r < 52/100 then .WIDE_PADDLE
  else if r < 66/100 then .SHRINK_PADDLE
  else if r < 78/100 then .THROUGH_BALL
  else if r < 90/100 then .FIREBALL
  else if r < 96/100 then .SHOOTING_PADDLE
  else .INSTANT_DEATH

/-- maybeSpawnPerk from the source. -/
def maybeSpawnPerk (b : Brick) (s : GS) : GS :=
  let pr := draw s
  if pr.1 < 22/100 then
    let rr := draw pr.2
    {rr.2 with perks := rr.2.perks ++
      [{pos := ⟨b.x, b.y⟩, vel := ⟨0, -150⟩, size := 18,
        type := perkTypeFor rr.1, alive := true}]}
  else pr.2

/-- applyPerk from the source. -/
def applyPerk (t : PerkType) (s : GS) : GS :=
  match t with
  | .EXTRA_LIFE =>
      {s with lives := if s.lives < MAX_LIVES then s.lives + 1 else MAX_LIVES}
  | .SPEED_UP =>
      {s with ball := {s.ball with speed := s.ball.speed * (118/100)}}
  | .WIDE_PADDLE =>
      {s with paddle := {s.paddle with
        w := if s.paddle.w * (135/100) < 320 then s.paddle.w * (135/100) else 320,
        widthTimer := 14}}
  | .SHRINK_PADDLE =>
      {s with paddle := {s.paddle with
        w := if 60 < s.paddle.w * (7/10) then s.paddle.w * (7/10) else 60,
        widthTimer := 12}}
  | .THROUGH_BALL =>
      {s with ball := {s.ball with through := true, throughTimer := 10}}
  | .FIREBALL =>
      {s with ball := {s.ball with
        fireball := true, fireballTimer := 8,
        through := true,
        throughTimer := if s.ball.throughTimer < 8 then 8 else s.ball.throughTimer}}
  | .INSTANT_DEATH =>
      let s1 := saveHighScore {s with lives := 0, current := Screen.GAMEOVER}
      {s1 with canResume := false}
  | .SHOOTING_PADDLE =>
      {s with paddle := {s.paddle with shooting := true, shootingTimer := 12}}

/-- aabbCircleCollision from the source, over ℚ with the square root abstract;
`none` models `return false`, `some (normal, penetration)` models `return true`
with the out-parameters. -/
def aabbCircleCollisionQ (sq : ℚ → ℚ) (rx ry rw rh : ℚ) (c : Vec2) (r : ℚ) :
    Option (Vec2 × ℚ) :=
  let cx := clampv c.x (rx - rw/2) (rx + rw/2)
  let cy := clampv c.y (ry - rh/2) (ry + rh/2)
  let dx := c.x - cx
  let dy := c.y - cy
  let d2 := dx*dx + dy*dy
  if r*r < d2 then none
  else
    let d := sq (if d2 < 1/1000000 then 1/1000000 else d2)
    some (if 1/10000 < d then ⟨dx/d, dy/d⟩ else ⟨0, 1⟩, r - d)

/-- reflectBall from the source over ℚ, as a function of the ball (reads
`vel` and `speed`, writes `vel`). -/
def reflectBallQ (sq : ℚ → ℚ) (ball : Ball) (n : Vec2) : Ball :=
  let v := ball.vel
  let sp := sq (vdot v v)
  if sp < 1/1000000 then ball
  else
    let dir := vscale v (1/sp)
    let rr : Vec2 := ⟨dir.x - n.x * (2 * vdot dir n), dir.y - n.y * (2 * vdot dir n)⟩
    {ball with vel := vscale (normalizeQ sq rr) ball.speed}

/-- loseLife from the source. -/
def loseLife (s : GS) : GS :=
  let s1 := if 0 < s.lives then {s with lives := s.lives - 1} else s
  if s1.lives ≤ 0 then
    let s2 := saveHighScore {s1 with lives := 0, current := Screen.GAMEOVER}
    {s2 with canResume := false}
  else
    resetBallOnPaddle {s1 with paddle := {s1.paddle with
      pos := ⟨s1.scrW/2, s1.paddle.pos.y⟩,
      w := 120, widthTimer := 0, shooting := false, shootingTimer := 0}}

/-- fireBullet from the source. -/
def fireBullet (s : GS) : GS :=
  if s.paddle.shooting = true then
    {s with bullets := s.bullets ++
      [{pos := ⟨s.paddle.pos.x, s.paddle.pos.y + s.paddle.h/2 + 8⟩, vel := ⟨0, 640⟩,
        w := 4, h := 10, alive := true}]}
  else s

/-- the brick-damage pattern shared by the ball and bullet hit branches:
`int before = hp; hp -= 1; if (before > 0 && hp <= 0) alive = false;`. -/
def damageBrick (br : Brick) : Brick :=
  let br2 := {br with hp := br.hp - 1}
  if 0 < br.hp ∧ br.hp - 1 ≤ 0 then {br2 with alive := false} else br2

/-- the ball-vs-bricks for-loop of updateGame (score, perk spawning and,
when not in through or fireball mode, positional correction plus reflection,
for every living brick the circle test hits; no early exit). -/
def ballBrickLoop (sq : ℚ → ℚ) : List Brick → GS → List Brick × GS
  | [], s => ([], s)
  | br :: rest, s =>
    if br.alive = true then
      match aabbCircleCollisionQ sq br.x br.y br.w br.h s.ball.pos s.ball.radius with
      | some (bn, bpen) =>
        let br2 := damageBrick br
        let s2 := {s with score := s.score + br.score}
        let s3 := if 0 < br.hp ∧ br.hp - 1 ≤ 0 then maybeSpawnPerk br2 s2 else s2
        let corrected := {s3.ball with pos := vadd s3.ball.pos (vscale bn bpen)}
        let s4 := if s3.ball.through = true ∨ s3.ball.fireball = true then s3
                  else {s3 with ball := reflectBallQ sq corrected bn}
        let res := ballBrickLoop sq rest s4
        (br2 :: res.1, res.2)
      | none =>
        let res := ballBrickLoop sq rest s
        (br :: res.1, res.2)
    else
      let res := ballBrickLoop sq rest s
      (br :: res.1, res.2)

/-- the perk movement/collection for-loop of updateGame; the Bool is true
when the loop hit the `if (lives <= 0) return;` early exit (in that case the
remaining perks are returned untouched, as the real loop leaves them). -/
def perkLoop (dt : ℚ) : List Perk → GS → List Perk × GS × Bool
  | [], s => ([], s, false)
  | p :: rest, s =>
    if p.alive = true then
      let p1 := {p with pos := vadd p.pos (vscale p.vel dt)}
      if p1.pos.y < -30 then
        let res := perkLoop dt rest s
        ({p1 with alive := false} :: res.1, res.2.1, res.2.2)
      else
        if |p1.pos.x - s.paddle.pos.x| ≤ s.paddle.w/2 + p1.size/2 ∧
           |p1.pos.y - s.paddle.pos.y| ≤ s.paddle.h/2 + p1.size/2 then
          let p2 := {p1 with alive := false}
          let s1 := applyPerk p1.type s
          if s1.lives ≤ 0 then (p2 :: rest, s1, true)
          else
            let res := perkLoop dt rest s1
            (p2 :: res.1, res.2.1, res.2.2)
        else
          let res := perkLoop dt rest s
          (p1 :: res.1, res.2.1, res.2.2)
    else
      let res := perkLoop dt rest s
      (p :: res.1, res.2.1, res.2.2)

/-- the inner bullet-vs-bricks scan of updateGame: first living overlapping
brick is damaged, the bullet dies, and the scan `break`s (bricks after the
first hit are returned untouched). -/
def bulletScan (bu : Bullet) : List Brick → GS → List Brick × Bullet × GS
  | [], s => ([], bu, s)
  | br :: rest, s =>
    if br.alive = true then
      if |bu.pos.x - br.x| ≤ br.w/2 ∧ |bu.pos.y - br.y| ≤ br.h/2 then
        let br2 := damageBrick br
        let s2 := {s with score := s.score + br.score}
        let s3 := if 0 < br.hp ∧ br.hp - 1 ≤ 0 then maybeSpawnPerk br2 s2 else s2
        (br2 :: rest, {bu with alive := false}, s3)
      else
        let res := bulletScan bu rest s
        (br :: res.1, res.2.1, res.2.2)
    else
      let res := bulletScan bu rest s
      (br :: res.1, res.2.1, res.2.2)

/-- the outer bullet for-loop of updateGame. -/
def bulletLoop (dt : ℚ) : List Bullet → GS → List Bullet × GS
  | [], s => ([], s)
  | bu :: rest, s =>
    if bu.alive = true then
      let bu1 := {bu with pos := vadd bu.pos (vscale bu.vel dt)}
      if s.scrH + 20 < bu1.pos.y then
        let res := bulletLoop dt rest s
        ({bu1 with alive := false} :: res.1, res.2)
      else
        let scan := bulletScan bu1 s.bricks s
        let s2 := {scan.2.2 with bricks := scan.1}
        let res := bulletLoop dt rest s2
        (scan.2.1 :: res.1, res.2)
    else
      let res := bulletLoop dt rest s
      (bu :: res.1, res.2)

/-- the timer-decay updates of updateGame applied to the ball
(through and fireball timers). -/
def updBallTimers (dt : ℚ) (b : Ball) : Ball :=
  let b1 := if b.through = true then
              (if b.throughTimer - dt ≤ 0 then
                 {b with throughTimer := b.throughTimer - dt, through := false}
               else {b with throughTimer := b.throughTimer - dt})
            else b
  if b1.fireball = true then
    (if b1.fireballTimer - dt ≤ 0 then
       {b1 with fireballTimer := b1.fireballTimer - dt, fireball := false}
     else {b1 with fireballTimer := b1.fireballTimer - dt})
  else b1

/-- the timer-decay updates of updateGame applied to the paddle
(width and shooting timers). -/
def updPaddleTimers (dt : ℚ) (p : Paddle) : Paddle :=
  let p1 := if 0 < p.widthTimer then
              (if p.widthTimer - dt ≤ 0 then {p with widthTimer := 0, w := 120}
               else {p with widthTimer := p.widthTimer - dt})
            else p
  if p1.shooting = true then
    (if p1.shootingTimer - dt ≤ 0 then
       {p1 with shootingTimer := p1.shootingTimer - dt, shooting := false}
     else {p1 with shootingTimer := p1.shootingTimer - dt})
  else p1

/-- step 1 of updateGame: timers and the continuous speed ramp. -/
def stepTimers (dt : ℚ) (s : GS) : GS :=
  {s with globalSpeedGain := s.globalSpeedGain + dt*2,
          ball := updBallTimers dt {s.ball with speed := s.ball.speed + dt*4},
          paddle := updPaddleTimers dt s.paddle}

/-- step 2 of updateGame: paddle translation and clamping. -/
def stepPaddleMove (dt : ℚ) (s : GS) : GS :=
  let vx := (if s.leftHeld = true then -s.paddle.speed else 0) +
            (if s.rightHeld = true then s.paddle.speed else 0)
  let x1 := s.paddle.pos.x + vx*dt
  {s with paddle := {s.paddle with pos :=
    ⟨clampv x1 (s.paddle.w/2 + 6) (s.scrW - s.paddle.w/2 - 6), s.paddle.pos.y⟩}}

/-- the free-ball integration of updateGame: `pos += vel*dt`. -/
def moveBall (dt : ℚ) (b : Ball) : Ball :=
  {b with pos := vadd b.pos (vscale b.vel dt)}

/-- the three wall reflections of updateGame (left, right, top), in source
order. -/
def wallBounce (scrW scrH : ℚ) (b : Ball) : Ball :=
  let b1 := if b.pos.x - b.radius < 0 then
              {b with pos := ⟨b.radius, b.pos.y⟩, vel := ⟨|b.vel.x|, b.vel.y⟩}
            else b
  let b2 := if scrW < b1.pos.x + b1.radius then
              {b1 with pos := ⟨scrW - b1.radius, b1.pos.y⟩, vel := ⟨-|b1.vel.x|, b1.vel.y⟩}
            else b1
  if scrH < b2.pos.y + b2.radius then
    {b2 with pos := ⟨b2.pos.x, scrH - b2.radius⟩, vel := ⟨b2.vel.x, -|b2.vel.y|⟩}
  else b2

/-- the ball-vs-paddle collision response of updateGame (positional
correction plus the impact-offset-directed bounce with upward-forced y). -/
def paddleBounce (sq : ℚ → ℚ) (s : GS) : GS :=
  match aabbCircleCollisionQ sq s.paddle.pos.x s.paddle.pos.y
          s.paddle.w s.paddle.h s.ball.pos s.ball.radius with
  | some np =>
    let pos2 := vadd s.ball.pos (vscale np.1 np.2)
    let rel := clampv ((pos2.x - s.paddle.pos.x) / (s.paddle.w/2)) (-1) 1
    let dir := normalizeQ sq ⟨rel, 6/5⟩
    let v2 := vscale dir s.ball.speed
    {s with ball := {s.ball with pos := pos2, vel := ⟨v2.x, |v2.y|⟩}}
  | none => s

/-- steps 3-5 of updateGame: ball motion, walls, bottom-boundary life loss
(the Bool is true on the `loseLife(); return;` early exit), paddle bounce,
and the brick loop. -/
def stepBall (sq : ℚ → ℚ) (dt : ℚ) (s : GS) : Bool × GS :=
  if s.ball.stuck = true then
    (false, {s with ball := {s.ball with pos :=
      ⟨s.paddle.pos.x, s.paddle.pos.y + s.paddle.h/2 + s.ball.radius + 1⟩}})
  else
    let b3 := wallBounce s.scrW s.scrH (moveBall dt s.ball)
    let s1 := {s with ball := b3}
    if b3.pos.y - b3.radius < 0 then (true, loseLife s1)
    else
      let s2 := paddleBounce sq s1
      let res := ballBrickLoop sq s2.bricks s2
      (false, {res.2 with bricks := res.1})

/-- step 8 of updateGame: the win check. -/
def winCheck (s : GS) : GS :=
  if s.bricks.any (fun b => b.alive) = true then s
  else
    let s1 := saveHighScore {s with current := Screen.WIN}
    {s1 with canResume := false}

/-- updateGame from the source, one simulation step. -/
def updateGame (sq : ℚ → ℚ) (dt : ℚ) (s : GS) : GS :=
  let s1 := stepPaddleMove dt (stepTimers dt s)
  let bres := stepBall sq dt s1
  if bres.1 = true then bres.2
  else
    let pres := perkLoop dt bres.2.perks bres.2
    if pres.2.2 = true then {pres.2.1 with perks := pres.1}
    else
      let s2 := {pres.2.1 with perks := pres.1}
      let bl := bulletLoop dt s2.bullets s2
      winCheck {bl.2 with bullets := bl.1}

/-- the menu-item confirm handler shared by onKey (Enter) and onMouse
(left click) in the MENU screen: the highlighted item is selected by index;
EXIT terminates the process (modelled as identity). -/
def menuConfirm (s : GS) : GS :=
  let itemCount : ℤ := if s.canResume = true then 5 else 4
  if 0 ≤ s.menuIndex ∧ s.menuIndex < itemCount then
    if s.canResume = true then
      if s.menuIndex = 0 then {s with current := Screen.PLAY}
      else if s.menuIndex = 1 then newGame s
      else if s.menuIndex = 2 then {s with current := Screen.HIGHSCORES}
      else if s.menuIndex = 3 then {s with current := Screen.HELP}
      else s
    else
      if s.menuIndex = 0 then newGame s
      else if s.menuIndex = 1 then {s with current := Screen.HIGHSCORES}
      else if s.menuIndex = 2 then {s with current := Screen.HELP}
      else s
  else s

/-- the pause-menu confirm handler shared by Enter and left click. -/
def pauseConfirm (s : GS) : GS :=
  if s.pauseMenuIndex = 0 then {s with current := Screen.PLAY}
  else if s.pauseMenuIndex = 1 then exitToMenu s
  else s

/-- the space-key ball launch in PLAY. -/
def launchKey (sq : ℚ → ℚ) (s : GS) : GS :=
  if s.ball.stuck = true then
    {s with
      hasLaunched := true,
      ball := {s.ball with
        stuck := false,
        vel := vscale (normalizeQ sq ⟨2/10, 1⟩) s.ball.speed}}
  else s

/-- the left-click ball launch in PLAY (does not set hasLaunched, as in the
source). -/
def launchMouse (sq : ℚ → ℚ) (s : GS) : GS :=
  if s.ball.stuck = true then
    {s with ball := {s.ball with
       stuck := false,
       vel := vscale (normalizeQ sq ⟨0, 1⟩) s.ball.speed}}
  else s

def onKeyEnter (s : GS) : GS :=
  match s.current with
  | .MENU => menuConfirm s
  | .HELP => {s with current := Screen.MENU}
  | .HIGHSCORES => {s with current := Screen.MENU}
  | .WIN => {s with current := Screen.MENU}
  | .GAMEOVER => {s with current := Screen.MENU}
  | .PAUSE => pauseConfirm s
  | .PLAY => s

def onKeyEsc (s : GS) : GS :=
  match s.current with
  | .MENU => s
  | .HELP => {s with current := Screen.MENU}
  | .HIGHSCORES => {s with current := Screen.MENU}
  | .WIN => s
  | .GAMEOVER => s
  | .PLAY => {s with current := Screen.PAUSE, canResume := true, pauseMenuIndex := 0}
  | .PAUSE => {s with current := Screen.PLAY}

def onKeyP (s : GS) : GS :=
  match s.current with
  | .PLAY => {s with current := Screen.PAUSE, canResume := true, pauseMenuIndex := 0}
  | .PAUSE => {s with current := Screen.PLAY}
  | _ => s

def onKeyR (s : GS) : GS :=
  match s.current with
  | .PAUSE => {s with current := Screen.PLAY}
  | _ => s

def onKeyE (s : GS) : GS :=
  match s.current with
  | .PAUSE => exitToMenu s
  | _ => s

def onKeySpace (sq : ℚ → ℚ) (s : GS) : GS :=
  match s.current with
  | .PLAY => launchKey sq s
  | _ => s

def onKeyF (s : GS) : GS :=
  match s.current with
  | .PLAY => fireBullet s
  | _ => s

def onSpUp (s : GS) : GS :=
  match s.current with
  | .MENU =>
      let itemCount : ℤ := if s.canResume = true then 5 else 4
      {s with menuIndex := Int.tmod (s.menuIndex - 1 + itemCount) itemCount}
  | .PAUSE => {s with pauseMenuIndex := Int.tmod (s.pauseMenuIndex - 1 + 2) 2}
  | _ => s

def onSpDown (s : GS) : GS :=
  match s.current with
  | .MENU =>
      let itemCount : ℤ := if s.canResume = true then 5 else 4
      {s with menuIndex := Int.tmod (s.menuIndex + 1) itemCount}
  | .PAUSE => {s with pauseMenuIndex := Int.tmod (s.pauseMenuIndex + 1) 2}
  | _ => s

def onSpLeft (s : GS) : GS :=
  match s.current with
  | .PLAY => {s with leftHeld := true}
  | _ => s

def onSpRight (s : GS) : GS :=
  match s.current with
  | .PLAY => {s with rightHeld := true}
  | _ => s

def onClickL (sq : ℚ → ℚ) (s : GS) : GS :=
  match s.current with
  | .MENU => menuConfirm s
  | .PAUSE => pauseConfirm s
  | .PLAY => launchMouse sq s
  | _ => s

def onClickR (s : GS) : GS :=
  match s.current with
  | .PLAY => fireBullet s
  | _ => s

def onMotion (x : ℚ) (s : GS) : GS :=
  if s.current = Screen.PLAY then
    let minX := s.paddle.w/2 + 6
    let maxX := s.scrW - s.paddle.w/2 - 6
    let nx := if x < minX then minX else x
    let nx2 := if maxX < nx then maxX else nx
    {s with paddle := {s.paddle with pos := ⟨nx2, s.paddle.pos.y⟩}}
  else s

/-- onIdle from the source: only in PLAY, with dt clamped into [0, 0.03]. -/
def onIdle (sq : ℚ → ℚ) (dt : ℚ) (s : GS) : GS :=
  if s.current = Screen.PLAY then
    let dt1 := if dt < 0 then 0 else dt
    let dt2 := if 3/100 < dt1 then 3/100 else dt1
    updateGame sq dt2 s
  else s

/-- the discrete input/clock events delivered by the GLUT layer. -/
inductive Ev
| idle (dt : ℚ)
| keyEnter
| keyEsc
| keyP
| keyR
| keyE
| keySpace
| keyF
| spUp
| spDown
| spLeft
| spRight
| spLeftUp
| spRightUp
| clickL
| clickR
| motion (x : ℚ)
| reshape (w h : ℚ)

/-- dispatch of one event to its handler. -/
def stepEv (sq : ℚ → ℚ) (e : Ev) (s : GS) : GS :=
  match e with
  | .idle dt => onIdle sq dt s
  | .keyEnter => onKeyEnter s
  | .keyEsc => onKeyEsc s
  | .keyP => onKeyP s
  | .keyR => onKeyR s
  | .keyE => onKeyE s
  | .keySpace => onKeySpace sq s
  | .keyF => onKeyF s
  | .spUp => onSpUp s
  | .spDown => onSpDown s
  | .spLeft => onSpLeft s
  | .spRight => onSpRight s
  | .spLeftUp => {s with leftHeld := false}
  | .spRightUp => {s with rightHeld := false}
  | .clickL => onClickL sq s
  | .clickR => onClickR s
  | .motion x => onMotion x s
  | .reshape w h => {s with scrW := w, scrH := h}

def runEvs (sq : ℚ → ℚ) : List Ev → GS → GS
  | [], s => s
  | e :: es, s => runEvs sq es (stepEv sq e s)

/-- whether delivering `e` in state `s` would invoke newGame (the menu
START NEW GAME item confirmed by Enter or left click). -/
def startsNewGame (e : Ev) (s : GS) : Bool :=
  match e with
  | .keyEnter =>
      decide (s.current = Screen.MENU) &&
      (if s.canResume = true then decide (s.menuIndex = 1) else decide (s.menuIndex = 0))
  | .clickL =>
      decide (s.current = Screen.MENU) &&
      (if s.canResume = true then decide (s.menuIndex = 1) else decide (s.menuIndex = 0))
  | _ => false

/-- no event of the trace invokes newGame. -/
def allNoNewGame (sq : ℚ → ℚ) : List Ev → GS → Bool
  | [], _ => true
  | e :: es, s => !startsNewGame e s && allNoNewGame sq es (stepEv sq e s)

/-- the program state right after main's initialization, with an arbitrary
RNG stream. -/
def initState (rng0 : List ℚ) : GS :=
  resetBallOnPaddle
    { current := Screen.MENU, bricks := [], perks := [], bullets := [],
      ball := {pos := ⟨0, 0⟩, vel := ⟨0, 0⟩, speed := 320, radius := 9, stuck := true,
               through := false, throughTimer := 0, fireball := false, fireballTimer := 0},
      paddle := {pos := ⟨450, 48⟩, w := 120, h := 16, speed := 630, widthTimer := 0,
                 shooting := false, shootingTimer := 0},
      lives := 3, score := 0, playTime := 0, leftHeld := false, rightHeld := false,
      hasLaunched := false, canResume := false, menuIndex := 0, pauseMenuIndex := 0,
      globalSpeedGain := 0, history := [], rng := rng0, scrW := 900, scrH := 700 }

/-- states reachable from program start by any event trace. -/
inductive Reachable (sq : ℚ → ℚ) : GS → Prop
| init (rng0 : List ℚ) : Reachable sq (initState rng0)
| step (e : Ev) (s : GS) : Reachable sq s → Reachable sq (stepEv sq e s)

/-- a concrete square-root stand-in for witnesses whose evaluation never
reaches a square-root call. -/
def sqZero : ℚ → ℚ := fun _ => 0

/-- whether this updateGame step hits the bottom-boundary check: the ball is
free and, after integration and the possible top-wall clamp, its lower edge
is below 0 (the x-wall reflections do not move y). -/
def ballFell (dt : ℚ) (s : GS) : Prop :=
  s.ball.stuck = false ∧
  (let y1 := s.ball.pos.y + s.ball.vel.y * dt
   let y2 := if s.scrH < y1 + s.ball.radius then s.scrH - s.ball.radius else y1
   y2 - s.ball.radius < 0)

/-- the overlap test of the bullet-vs-brick scan. -/
def bulletOverlap (bu : Bullet) (br : Brick) : Prop :=
  |bu.pos.x - br.x| ≤ br.w/2 ∧ |bu.pos.y - br.y| ≤ br.h/2

/-- the boolean outcome of the circle-vs-box test between the ball and a
brick (squared clamped distance at most squared radius); this is exactly the
condition under which `aabbCircleCollisionQ` reports a hit, independently of
the square-root parameter. -/
def ballHits (ball : Ball) (br : Brick) : Prop :=
  let cx := clampv ball.pos.x (br.x - br.w/2) (br.x + br.w/2)
  let cy := clampv ball.pos.y (br.y - br.h/2) (br.y + br.h/2)
  (ball.pos.x - cx)*(ball.pos.x - cx) + (ball.pos.y - cy)*(ball.pos.y - cy) ≤
    ball.radius*ball.radius

instance (b : Ball) (br : Brick) : Decidable (ballHits b br) := by
  unfold ballHits
  infer_instance

instance (bu : Bullet) (br : Brick) : Decidable (bulletOverlap bu br) := by
  unfold bulletOverlap
  infer_instance

/-- the fireball-implies-through strengthened invariant on a ball. -/
def FbInvB (b : Ball) : Prop :=
  b.fireball = true →
    (b.through = true ∧ b.fireballTimer ≤ b.throughTimer ∧ b.fireballTimer ≤ 8)

def FbInv (s : GS) : Prop := FbInvB s.ball

/-- the strengthened lives invariant: lives stays in [0,5], and a session
that can still be (re)entered (PLAY, PAUSE, or a resumable menu) always has
at least one life left. -/
def LInv (s : GS) : Prop :=
  (0 ≤ s.lives ∧ s.lives ≤ 5) ∧
  ((s.current = Screen.PLAY ∨ s.current = Screen.PAUSE ∨ s.canResume = true) →
    1 ≤ s.lives)

/-- no live WIDE_PADDLE perk is present. -/
def wideFree (s : GS) : Prop :=
  ∀ p ∈ s.perks, p.alive = true → p.type ≠ PerkType.WIDE_PADDLE

/-- every pending RNG draw is at least 0.22, so no perk can spawn. -/
def rngNoSpawn (s : GS) : Prop := ∀ q ∈ s.rng, 22/100 ≤ q

/-- the paddle x-position is inside the playfield margins for the current
paddle width. -/
def paddleInBounds (s : GS) : Prop :=
  s.paddle.w/2 + 6 ≤ s.paddle.pos.x ∧ s.paddle.pos.x ≤ s.scrW - s.paddle.w/2 - 6

/-- the per-session history-append bookkeeping, relative to the history
length `h0` the session started with. -/
def sessInv (h0 : ℕ) (s : GS) : Prop :=
  ((s.current = Screen.PLAY ∨ s.current = Screen.PAUSE) → s.history.length = h0) ∧
  ((s.current = Screen.WIN ∨ s.current = Screen.GAMEOVER) →
     s.history.length = h0 + 1 ∧ s.canResume = false) ∧
  ((s.current = Screen.MENU ∨ s.current = Screen.HELP ∨ s.current = Screen.HIGHSCORES) →
     s.history.length ≤ h0 + 1 ∧ s.canResume = false)

/-- a playing state holding a live WIDE_PADDLE perk right on a paddle that
sits at the right margin: the pickup happens after the frame's clamp. -/
def cexWide : GS :=
  { current := Screen.PLAY, bricks := [], bullets := [],
    perks := [{pos := ⟨834, 48⟩, vel := ⟨0, -150⟩, size := 18,
               type := PerkType.WIDE_PADDLE, alive := true}],
    ball := {pos := ⟨450, 66⟩, vel := ⟨0, 1⟩, speed := 320, radius := 9, stuck := true,
             through := false, throughTimer := 0, fireball := false, fireballTimer := 0},
    paddle := {pos := ⟨834, 48⟩, w := 120, h := 16, speed := 630, widthTimer := 0,
               shooting := false, shootingTimer := 0},
    lives := 3, score := 0, playTime := 0, leftHeld := false, rightHeld := false,
    hasLaunched := false, canResume := true, menuIndex := 0, pauseMenuIndex := 0,
    globalSpeedGain := 0, history := [], rng := [], scrW := 900, scrH := 700 }

/-- a playing state in which the free ball is below the bottom boundary with
speed 400 (gained from SPEED_UP pickups) and lives left: the life-loss reset
puts the speed back to the 320 baseline. -/
def cexSpeed : GS :=
  { current := Screen.PLAY, bricks := [], bullets := [], perks := [],
    ball := {pos := ⟨450, 5⟩, vel := ⟨0, -10⟩, speed := 400, radius := 9, stuck := false,
             through := false, throughTimer := 0, fireball := false, fireballTimer := 0},
    paddle := {pos := ⟨450, 48⟩, w := 120, h := 16, speed := 630, widthTimer := 0,
               shooting := false, shootingTimer := 0},
    lives := 3, score := 0, playTime := 0, leftHeld := false, rightHeld := false,
    hasLaunched := true, canResume := true, menuIndex := 0, pauseMenuIndex := 0,
    globalSpeedGain := 0, history := [], rng := [], scrW := 900, scrH := 700 }

/-! Real-valued geometry: the two pure collision primitives, embedded over ℝ
with the genuine square root. -/

structure Vec2R where
  x : ℝ
  y : ℝ

/-- length from the source, over ℝ. -/
noncomputable def lengthR (a : Vec2R) : ℝ := Real.sqrt (a.x*a.x + a.y*a.y)

/-- normalize from the source, over ℝ. -/
noncomputable def normalizeR (a : Vec2R) : Vec2R :=
  if 1/1000000 < lengthR a then ⟨a.x / lengthR a, a.y / lengthR a⟩ else ⟨1, 0⟩

/-- reflectBall from the source over ℝ, as a function of the ball's scalar
speed, its velocity and the collision normal, returning the new velocity. -/
noncomputable def reflectBall (speed : ℝ) (v n : Vec2R) : Vec2R :=
  let sp := lengthR v
  if sp < 1/1000000 then v
  else
    let dir : Vec2R := ⟨v.x * (1/sp), v.y * (1/sp)⟩
    let t := dir.x * n.x + dir.y * n.y
    let r : Vec2R := ⟨dir.x - n.x * (2*t), dir.y - n.y * (2*t)⟩
    let nr := normalizeR r
    ⟨nr.x * speed, nr.y * speed⟩

/-- Modelled from the spec (section 4.1): the reflection formula
`v' = (d - 2 (d·n) n) * speed` with `d` the normalized incoming direction;
used to compare the code's reflectBall against the spec's words. -/
noncomputable def reflectSpec (speed : ℝ) (v n : Vec2R) : Vec2R :=
  let L := lengthR v
  let dx := v.x / L
  let dy := v.y / L
  let t := dx * n.x + dy * n.y
  ⟨(dx - 2*t*n.x) * speed, (dy - 2*t*n.y) * speed⟩

/-- aabbCircleCollision from the source over ℝ; `none` models
`return false`. -/
noncomputable def aabbCircleCollision (rx ry rw rh : ℝ) (c : Vec2R) (r : ℝ) :
    Option (Vec2R × ℝ) :=
  let cx := clampv c.x (rx - rw/2) (rx + rw/2)
  let cy := clampv c.y (ry - rh/2) (ry + rh/2)
  let dx := c.x - cx
  let dy := c.y - cy
  let d2 := dx*dx + dy*dy
  if r*r < d2 then none
  else
    let d := Real.sqrt (if d2 < 1/1000000 then 1/1000000 else d2)
    some (if 1/10000 < d then ⟨dx/d, dy/d⟩ else ⟨0, 1⟩, r - d)

/-- the squared distance from the circle center to its clamped nearest point
in the box, as computed inside aabbCircleCollision. -/
noncomputable def clampedDist2 (rx ry rw rh : ℝ) (c : Vec2R) : ℝ :=
  let cx := clampv c.x (rx - rw/2) (rx + rw/2)
  let cy := clampv c.y (ry - rh/2) (ry + rh/2)
  (c.x - cx)*(c.x - cx) + (c.y - cy)*(c.y - cy)

/-! ## Theorems -/

lemma lengthR_mul_self (a : Vec2R) : lengthR a * lengthR a = a.x*a.x + a.y*a.y :=
  Real.mul_self_sqrt (by nlinarith [mul_self_nonneg a.x, mul_self_nonneg a.y])

lemma lengthR_scale (a : Vec2R) (s : ℝ) : lengthR ⟨a.x*s, a.y*s⟩ = |s| * lengthR a := by
  unfold lengthR
  rw [show a.x*s*(a.x*s) + a.y*s*(a.y*s) = (s*s) * (a.x*a.x + a.y*a.y) by ring,
      Real.sqrt_mul (mul_self_nonneg s), Real.sqrt_mul_self_eq_abs]

lemma normalizeR_length (a : Vec2R) : lengthR (normalizeR a) = 1 := by
  unfold normalizeR
  split_ifs with h
  · have hL : 0 < lengthR a := lt_trans (by norm_num) h
    rw [show (⟨a.x / lengthR a, a.y / lengthR a⟩ : Vec2R) =
          ⟨a.x * (1/lengthR a), a.y * (1/lengthR a)⟩ by rw [mul_one_div, mul_one_div],
        lengthR_scale, abs_of_pos (by positivity), one_div, inv_mul_cancel₀ hL.ne']
  · unfold lengthR
    norm_num

lemma normalizeR_of_unit (a : Vec2R) (h : lengthR a = 1) : normalizeR a = a := by
  unfold normalizeR
  rw [h, if_pos (by norm_num)]
  cases a
  simp

/-- C6: for inputs with magnitude at least 1e-6 (and a unit normal, as the
collision code supplies), reflectBall produces exactly the spec's mirror
reflection of the normalized incoming direction scaled to the ball's current
scalar speed; its output magnitude is the current speed regardless of the
input magnitude; and a near-zero-speed input is left unchanged. -/
theorem c6_reflect (speed : ℝ) (v n : Vec2R) :
    (lengthR v < 1/1000000 → reflectBall speed v n = v) ∧
    (1/1000000 ≤ lengthR v → 0 ≤ speed → lengthR (reflectBall speed v n) = speed) ∧
    (1/1000000 ≤ lengthR v → lengthR n = 1 →
      reflectBall speed v n = reflectSpec speed v n) := by
  have hkey : ∀ dx dy : ℝ, dx*dx + dy*dy = 1 → n.x*n.x + n.y*n.y = 1 →
      (dx - n.x*(2*(dx*n.x + dy*n.y)))*(dx - n.x*(2*(dx*n.x + dy*n.y))) +
      (dy - n.y*(2*(dx*n.x + dy*n.y)))*(dy - n.y*(2*(dx*n.x + dy*n.y))) = 1 := by
    intro dx dy hd hn2
    have expand : (dx - n.x*(2*(dx*n.x + dy*n.y)))*(dx - n.x*(2*(dx*n.x + dy*n.y))) +
        (dy - n.y*(2*(dx*n.x + dy*n.y)))*(dy - n.y*(2*(dx*n.x + dy*n.y))) =
        (dx*dx + dy*dy) - 4*(dx*n.x + dy*n.y)*(dx*n.x + dy*n.y) +
        4*(dx*n.x + dy*n.y)*(dx*n.x + dy*n.y)*(n.x*n.x + n.y*n.y) := by ring
    rw [expand, hd, hn2]
    ring
  refine ⟨fun h => by simp only [reflectBall]; rw [if_pos h], ?_, ?_⟩
  · intro hv hs
    simp only [reflectBall, if_neg (not_lt.mpr hv)]
    rw [lengthR_scale, normalizeR_length, mul_one, abs_of_nonneg hs]
  · intro hv hn
    have hsp : 0 < lengthR v := lt_of_lt_of_le (by norm_num) hv
    have hv2 : v.x*v.x + v.y*v.y = lengthR v * lengthR v := (lengthR_mul_self v).symm
    have hn2 : n.x*n.x + n.y*n.y = 1 := by
      have h := lengthR_mul_self n
      rw [hn] at h
      linarith
    simp only [reflectBall, reflectSpec, if_neg (not_lt.mpr hv)]
    obtain ⟨dx, dy, hdx, hdy⟩ :
        ∃ dx dy, v.x * (1/lengthR v) = dx ∧ v.y * (1/lengthR v) = dy := ⟨_, _, rfl, rfl⟩
    rw [hdx, hdy]
    have hd : dx*dx + dy*dy = 1 := by
      rw [← hdx, ← hdy]
      field_simp
      nlinarith [hv2]
    have hone : lengthR ⟨dx - n.x*(2*(dx*n.x + dy*n.y)),
        dy - n.y*(2*(dx*n.x + dy*n.y))⟩ = 1 := by
      have hrfl : lengthR ⟨dx - n.x*(2*(dx*n.x + dy*n.y)), dy - n.y*(2*(dx*n.x + dy*n.y))⟩ =
          Real.sqrt ((dx - n.x*(2*(dx*n.x + dy*n.y)))*(dx - n.x*(2*(dx*n.x + dy*n.y))) +
            (dy - n.y*(2*(dx*n.x + dy*n.y)))*(dy - n.y*(2*(dx*n.x + dy*n.y)))) := rfl
      rw [hrfl, hkey dx dy hd hn2, Real.sqrt_one]
    rw [normalizeR_of_unit _ hone]
    simp only [Vec2R.mk.injEq]
    rw [← hdx, ← hdy]
    constructor <;> ring

/-- C6 witness: reflecting velocity (3,4) (magnitude 5) off the unit normal
(0,1) at current speed 10. -/
theorem c6_witness :
    (1/1000000 ≤ lengthR ⟨3, 4⟩ ∧ (0:ℝ) ≤ 10 ∧ lengthR ⟨0, 1⟩ = 1) ∧
    lengthR (reflectBall 10 ⟨3, 4⟩ ⟨0, 1⟩) = 10 ∧
    reflectBall 10 ⟨3, 4⟩ ⟨0, 1⟩ = reflectSpec 10 ⟨3, 4⟩ ⟨0, 1⟩ := by
  have h5 : lengthR ⟨3, 4⟩ = 5 := by
    unfold lengthR
    rw [show ((3:ℝ)*3 + 4*4) = 5*5 by norm_num, Real.sqrt_mul_self (by norm_num)]
  have h1 : lengthR ⟨0, 1⟩ = 1 := by
    unfold lengthR
    norm_num
  refine ⟨⟨by rw [h5]; norm_num, by norm_num, h1⟩, ?_, ?_⟩
  · exact (c6_reflect 10 ⟨3, 4⟩ ⟨0, 1⟩).2.1 (by rw [h5]; norm_num) (by norm_num)
  · exact (c6_reflect 10 ⟨3, 4⟩ ⟨0, 1⟩).2.2 (by rw [h5]; norm_num) h1

/-- C1: on a brick-destruction perk roll, a perk is spawned iff the first
uniform draw is below 0.22; the spawned perk's type is selected from the
second draw by the cumulative bins 0.18/0.36/0.52/0.66/0.78/0.90/0.96/1.0;
the eight boundary values each select the documented type; the bins
partition [0,1) with no gap or overlap; and the last two bins are in
swapped order relative to the PerkType enum declaration. -/
theorem c1_perk_spawn_bins :
    (∀ (b : Brick) (s : GS) (p r : ℚ) (rest : List ℚ), s.rng = p :: r :: rest →
      (((maybeSpawnPerk b s).perks.length = s.perks.length + 1) ↔ p < 22/100) ∧
      (p < 22/100 → (maybeSpawnPerk b s).perks = s.perks ++
        [{pos := ⟨b.x, b.y⟩, vel := ⟨0, -150⟩, size := 18,
          type := perkTypeFor r, alive := true}]) ∧
      (22/100 ≤ p → (maybeSpawnPerk b s).perks = s.perks)) ∧
    (perkTypeFor 0 = .EXTRA_LIFE ∧ perkTypeFor (18/100) = .SPEED_UP ∧
     perkTypeFor (36/100) = .WIDE_PADDLE ∧ perkTypeFor (52/100) = .SHRINK_PADDLE ∧
     perkTypeFor (66/100) = .THROUGH_BALL ∧ perkTypeFor (78/100) = .FIREBALL ∧
     perkTypeFor (90/100) = .SHOOTING_PADDLE ∧ perkTypeFor (96/100) = .INSTANT_DEATH) ∧
    (∀ r : ℚ, 0 ≤ r → r < 1 →
      ((0 ≤ r ∧ r < 18/100) ∧ perkTypeFor r = .EXTRA_LIFE) ∨
      ((18/100 ≤ r ∧ r < 36/100) ∧ perkTypeFor r = .SPEED_UP) ∨
      ((36/100 ≤ r ∧ r < 52/100) ∧ perkTypeFor r = .WIDE_PADDLE) ∨
      ((52/100 ≤ r ∧ r < 66/100) ∧ perkTypeFor r = .SHRINK_PADDLE) ∨
      ((66/100 ≤ r ∧ r < 78/100) ∧ perkTypeFor r = .THROUGH_BALL) ∨
      ((78/100 ≤ r ∧ r < 90/100) ∧ perkTypeFor r = .FIREBALL) ∨
      ((90/100 ≤ r ∧ r < 96/100) ∧ perkTypeFor r = .SHOOTING_PADDLE) ∨
      ((96/100 ≤ r ∧ r < 1) ∧ perkTypeFor r = .INSTANT_DEATH)) ∧
    ((perkTypeFor (90/100)).declIdx = 7 ∧ (perkTypeFor (96/100)).declIdx = 6 ∧
     PerkType.INSTANT_DEATH.declIdx < PerkType.SHOOTING_PADDLE.declIdx) := by
  refine ⟨?_, by norm_num [perkTypeFor], ?_, by norm_num [perkTypeFor, PerkType.declIdx]⟩
  · intro b s p r rest hrng
    have h1 : maybeSpawnPerk b s =
        if p < 22/100 then
          {s with rng := rest, perks := s.perks ++
            [{pos := ⟨b.x, b.y⟩, vel := ⟨0, -150⟩, size := 18,
              type := perkTypeFor r, alive := true}]}
        else {s with rng := r :: rest} := by
      simp only [maybeSpawnPerk, draw, hrng]
    by_cases hp : p < 22/100
    · rw [h1, if_pos hp]
      simp [hp]
    · rw [h1, if_neg hp]
      refine ⟨iff_of_false (by simp) hp, fun h => absurd h hp, fun _ => rfl⟩
  · intro r h0 h1
    by_cases h2 : r < 18/100
    · exact Or.inl ⟨⟨h0, h2⟩, by simp [perkTypeFor, h2]⟩
    by_cases h3 : r < 36/100
    · exact Or.inr (Or.inl ⟨⟨le_of_not_lt h2, h3⟩, by simp [perkTypeFor, h2, h3]⟩)
    by_cases h4 : r < 52/100
    · exact Or.inr (Or.inr (Or.inl ⟨⟨le_of_not_lt h3, h4⟩,
        by simp [perkTypeFor, h2, h3, h4]⟩))
    by_cases h5 : r < 66/100
    · exact Or.inr (Or.inr (Or.inr (Or.inl ⟨⟨le_of_not_lt h4, h5⟩,
        by simp [perkTypeFor, h2, h3, h4, h5]⟩)))
    by_cases h6 : r < 78/100
    · exact Or.inr (Or.inr (Or.inr (Or.inr (Or.inl ⟨⟨le_of_not_lt h5, h6⟩,
        by simp [perkTypeFor, h2, h3, h4, h5, h6]⟩))))
    by_cases h7 : r < 90/100
    · exact Or.inr (Or.inr (Or.inr (Or.inr (Or.inr (Or.inl ⟨⟨le_of_not_lt h6, h7⟩,
        by simp [perkTypeFor, h2, h3, h4, h5, h6, h7]⟩)))))
    by_cases h8 : r < 96/100
    · exact Or.inr (Or.inr (Or.inr (Or.inr (Or.inr (Or.inr (Or.inl
        ⟨⟨le_of_not_lt h7, h8⟩, by simp [perkTypeFor, h2, h3, h4, h5, h6, h7, h8]⟩))))))
    · exact Or.inr (Or.inr (Or.inr (Or.inr (Or.inr (Or.inr (Or.inr
        ⟨⟨le_of_not_lt h8, h1⟩, by simp [perkTypeFor, h2, h3, h4, h5, h6, h7, h8]⟩))))))

/-- C1 witness: the spawn roll on a concrete two-draw stream and the bin
partition at r = 1/2. -/
theorem c1_witness :
    (((maybeSpawnPerk
        {x := 450, y := 400, w := 60, h := 22, alive := false, hp := 0,
         r := 1, g := 1, b := 1, score := 50}
        (initState [1/10, 1/2])).perks.length =
       (initState [1/10, 1/2]).perks.length + 1) ↔ (1:ℚ)/10 < 22/100) ∧
    ((((0:ℚ) ≤ 1/2 ∧ (1:ℚ)/2 < 18/100) ∧ perkTypeFor (1/2) = .EXTRA_LIFE) ∨
      (((18:ℚ)/100 ≤ 1/2 ∧ (1:ℚ)/2 < 36/100) ∧ perkTypeFor (1/2) = .SPEED_UP) ∨
      (((36:ℚ)/100 ≤ 1/2 ∧ (1:ℚ)/2 < 52/100) ∧ perkTypeFor (1/2) = .WIDE_PADDLE) ∨
      (((52:ℚ)/100 ≤ 1/2 ∧ (1:ℚ)/2 < 66/100) ∧ perkTypeFor (1/2) = .SHRINK_PADDLE) ∨
      (((66:ℚ)/100 ≤ 1/2 ∧ (1:ℚ)/2 < 78/100) ∧ perkTypeFor (1/2) = .THROUGH_BALL) ∨
      (((78:ℚ)/100 ≤ 1/2 ∧ (1:ℚ)/2 < 90/100) ∧ perkTypeFor (1/2) = .FIREBALL) ∨
      (((90:ℚ)/100 ≤ 1/2 ∧ (1:ℚ)/2 < 96/100) ∧ perkTypeFor (1/2) = .SHOOTING_PADDLE) ∨
      (((96:ℚ)/100 ≤ 1/2 ∧ (1:ℚ)/2 < 1) ∧ perkTypeFor (1/2) = .INSTANT_DEATH)) :=
  ⟨(c1_perk_spawn_bins.1 _ (initState [1/10, 1/2]) (1/10) (1/2) [] rfl).1,
   c1_perk_spawn_bins.2.2.1 (1/2) (by norm_num) (by norm_num)⟩

lemma clampv_mem {α : Type} [LinearOrder α] {v lo hi : α} (h : lo ≤ hi) :
    lo ≤ clampv v lo hi ∧ clampv v lo hi ≤ hi := by
  unfold clampv
  split_ifs with h1 h2
  · exact ⟨le_refl lo, h⟩
  · exact ⟨h, le_refl hi⟩
  · exact ⟨not_lt.mp h1, not_lt.mp h2⟩

lemma updBallTimers_frame (dt : ℚ) (b : Ball) :
    (updBallTimers dt b).pos = b.pos ∧ (updBallTimers dt b).vel = b.vel ∧
    (updBallTimers dt b).speed = b.speed ∧ (updBallTimers dt b).radius = b.radius ∧
    (updBallTimers dt b).stuck = b.stuck := by
  simp only [updBallTimers]
  split_ifs <;> exact ⟨rfl, rfl, rfl, rfl, rfl⟩

lemma updPaddleTimers_frame (dt : ℚ) (p : Paddle) :
    (updPaddleTimers dt p).pos = p.pos ∧ (updPaddleTimers dt p).h = p.h ∧
    (updPaddleTimers dt p).speed = p.speed ∧
    ((updPaddleTimers dt p).w = 120 ∨ (updPaddleTimers dt p).w = p.w) := by
  simp only [updPaddleTimers]
  split_ifs <;> simp

lemma stepTimers_frame (dt : ℚ) (s : GS) :
    (stepTimers dt s).current = s.current ∧ (stepTimers dt s).bricks = s.bricks ∧
    (stepTimers dt s).perks = s.perks ∧ (stepTimers dt s).bullets = s.bullets ∧
    (stepTimers dt s).lives = s.lives ∧ (stepTimers dt s).score = s.score ∧
    (stepTimers dt s).history = s.history ∧ (stepTimers dt s).canResume = s.canResume ∧
    (stepTimers dt s).rng = s.rng ∧ (stepTimers dt s).scrW = s.scrW ∧
    (stepTimers dt s).scrH = s.scrH ∧ (stepTimers dt s).playTime = s.playTime :=
  ⟨rfl, rfl, rfl, rfl, rfl, rfl, rfl, rfl, rfl, rfl, rfl, rfl⟩

lemma stepTimers_ball (dt : ℚ) (s : GS) :
    (stepTimers dt s).ball.pos = s.ball.pos ∧ (stepTimers dt s).ball.vel = s.ball.vel ∧
    (stepTimers dt s).ball.speed = s.ball.speed + dt*4 ∧
    (stepTimers dt s).ball.radius = s.ball.radius ∧
    (stepTimers dt s).ball.stuck = s.ball.stuck :=
  updBallTimers_frame dt {s.ball with speed := s.ball.speed + dt*4}

lemma stepTimers_paddle (dt : ℚ) (s : GS) :
    (stepTimers dt s).paddle.pos = s.paddle.pos ∧
    (stepTimers dt s).paddle.h = s.paddle.h ∧
    (stepTimers dt s).paddle.speed = s.paddle.speed ∧
    ((stepTimers dt s).paddle.w = 120 ∨ (stepTimers dt s).paddle.w = s.paddle.w) :=
  updPaddleTimers_frame dt s.paddle

lemma stepPaddleMove_frame (dt : ℚ) (s : GS) :
    (stepPaddleMove dt s).ball = s.ball ∧ (stepPaddleMove dt s).current = s.current ∧
    (stepPaddleMove dt s).bricks = s.bricks ∧ (stepPaddleMove dt s).perks = s.perks ∧
    (stepPaddleMove dt s).bullets = s.bullets ∧ (stepPaddleMove dt s).lives = s.lives ∧
    (stepPaddleMove dt s).score = s.score ∧ (stepPaddleMove dt s).history = s.history ∧
    (stepPaddleMove dt s).canResume = s.canResume ∧ (stepPaddleMove dt s).rng = s.rng ∧
    (stepPaddleMove dt s).scrW = s.scrW ∧ (stepPaddleMove dt s).scrH = s.scrH ∧
    (stepPaddleMove dt s).paddle.w = s.paddle.w ∧
    (stepPaddleMove dt s).paddle.h = s.paddle.h ∧
    (stepPaddleMove dt s).paddle.pos.y = s.paddle.pos.y ∧
    (stepPaddleMove dt s).globalSpeedGain = s.globalSpeedGain ∧
    (stepPaddleMove dt s).playTime = s.playTime :=
  ⟨rfl, rfl, rfl, rfl, rfl, rfl, rfl, rfl, rfl, rfl, rfl, rfl, rfl, rfl, rfl, rfl, rfl⟩

lemma stepPaddleMove_x (dt : ℚ) (s : GS) (h : s.paddle.w + 12 ≤ s.scrW) :
    s.paddle.w/2 + 6 ≤ (stepPaddleMove dt s).paddle.pos.x ∧
    (stepPaddleMove dt s).paddle.pos.x ≤ s.scrW - s.paddle.w/2 - 6 := by
  have hle : s.paddle.w/2 + 6 ≤ s.scrW - s.paddle.w/2 - 6 := by linarith
  exact clampv_mem hle

lemma reflectBallQ_frame (sq : ℚ → ℚ) (b : Ball) (n : Vec2) :
    (reflectBallQ sq b n).speed = b.speed ∧ (reflectBallQ sq b n).stuck = b.stuck ∧
    (reflectBallQ sq b n).through = b.through ∧
    (reflectBallQ sq b n).fireball = b.fireball ∧
    (reflectBallQ sq b n).throughTimer = b.throughTimer ∧
    (reflectBallQ sq b n).fireballTimer = b.fireballTimer ∧
    (reflectBallQ sq b n).radius = b.radius := by
  simp only [reflectBallQ]
  split_ifs <;> exact ⟨rfl, rfl, rfl, rfl, rfl, rfl, rfl⟩

lemma maybeSpawnPerk_shape (b : Brick) (s : GS) :
    ∃ pk rg, maybeSpawnPerk b s = {s with perks := pk, rng := rg} := by
  cases hr : s.rng with
  | nil =>
    have he : maybeSpawnPerk b s = s := by
      simp only [maybeSpawnPerk, draw, hr]
      rw [if_neg (by norm_num : ¬ (1:ℚ) < 22/100)]
    exact ⟨s.perks, s.rng, by rw [he]⟩
  | cons p tail =>
    by_cases hp : p < 22/100
    · cases htl : tail with
      | nil =>
        refine ⟨s.perks ++ [⟨⟨b.x, b.y⟩, ⟨0, -150⟩, 18, perkTypeFor 1, true⟩], [], ?_⟩
        simp only [maybeSpawnPerk, draw, hr, htl]
        rw [if_pos hp]
      | cons q tail2 =>
        refine ⟨s.perks ++ [⟨⟨b.x, b.y⟩, ⟨0, -150⟩, 18, perkTypeFor q, true⟩], tail2, ?_⟩
        simp only [maybeSpawnPerk, draw, hr, htl]
        rw [if_pos hp]
    · refine ⟨s.perks, tail, ?_⟩
      simp only [maybeSpawnPerk, draw, hr]
      rw [if_neg hp]

lemma maybeSpawnPerk_noSpawn (b : Brick) (s : GS) (h : rngNoSpawn s) :
    (maybeSpawnPerk b s).perks = s.perks ∧ rngNoSpawn (maybeSpawnPerk b s) := by
  cases hr : s.rng with
  | nil =>
    have he : maybeSpawnPerk b s = s := by
      simp only [maybeSpawnPerk, draw, hr]
      rw [if_neg (by norm_num : ¬ (1:ℚ) < 22/100)]
    rw [he]
    exact ⟨rfl, h⟩
  | cons p tail =>
    have hp : ¬ p < 22/100 := not_lt.mpr (h p (by rw [hr]; exact List.mem_cons_self p tail))
    have he : maybeSpawnPerk b s = {s with rng := tail} := by
      simp only [maybeSpawnPerk, draw, hr]
      rw [if_neg hp]
    rw [he]
    refine ⟨rfl, fun q hq => h q ?_⟩
    rw [hr]
    exact List.mem_cons_of_mem p hq

lemma loseLife_terminal (s : GS) (h : s.lives ≤ 1) :
    loseLife s = {s with
      lives := 0, current := Screen.GAMEOVER,
      history := s.history ++ [⟨s.playTime, s.score⟩], canResume := false} := by
  by_cases h0 : 0 < s.lives
  · have h1 : s.lives - 1 ≤ 0 := by omega
    simp only [loseLife, saveHighScore, if_pos h0, if_pos h1]
  · have h1 : s.lives ≤ 0 := by omega
    simp only [loseLife, saveHighScore, if_neg h0, if_pos h1]

lemma loseLife_reset (s : GS) (h : 2 ≤ s.lives) :
    loseLife s =
      {s with
        lives := s.lives - 1,
        paddle := {s.paddle with
          pos := ⟨s.scrW/2, s.paddle.pos.y⟩, w := 120,
          widthTimer := 0, shooting := false, shootingTimer := 0},
        hasLaunched := false,
        ball := {s.ball with
          stuck := true, through := false, throughTimer := 0,
          fireball := false, fireballTimer := 0,
          speed := 320 + s.globalSpeedGain,
          pos := ⟨s.scrW/2, s.paddle.pos.y + s.paddle.h/2 + s.ball.radius + 1⟩,
          vel := ⟨0, 1⟩}} := by
  have h0 : (0:ℤ) < s.lives := by omega
  have h1 : ¬ (s.lives - 1 ≤ 0) := by omega
  simp only [loseLife, resetBallOnPaddle, if_pos h0, h1, if_false, if_neg h1]

lemma winCheck_cases (s : GS) :
    ((s.bricks.any (fun b => b.alive) = true) → winCheck s = s) ∧
    (¬ (s.bricks.any (fun b => b.alive) = true) →
      winCheck s = {s with
        current := Screen.WIN,
        history := s.history ++ [⟨s.playTime, s.score⟩], canResume := false}) := by
  constructor
  · intro h
    simp only [winCheck, if_pos h]
  · intro h
    simp only [winCheck, saveHighScore, if_neg h]

lemma ballBrickLoop_proj (sq : ℚ → ℚ) (l : List Brick) : ∀ s : GS,
    (ballBrickLoop sq l s).2.paddle = s.paddle ∧
    (ballBrickLoop sq l s).2.lives = s.lives ∧
    (ballBrickLoop sq l s).2.current = s.current ∧
    (ballBrickLoop sq l s).2.history = s.history ∧
    (ballBrickLoop sq l s).2.canResume = s.canResume ∧
    (ballBrickLoop sq l s).2.bullets = s.bullets ∧
    (ballBrickLoop sq l s).2.bricks = s.bricks ∧
    (ballBrickLoop sq l s).2.scrW = s.scrW ∧
    (ballBrickLoop sq l s).2.scrH = s.scrH ∧
    (ballBrickLoop sq l s).2.playTime = s.playTime ∧
    (ballBrickLoop sq l s).2.globalSpeedGain = s.globalSpeedGain ∧
    (ballBrickLoop sq l s).2.ball.speed = s.ball.speed ∧
    (ballBrickLoop sq l s).2.ball.stuck = s.ball.stuck ∧
    (ballBrickLoop sq l s).2.ball.through = s.ball.through ∧
    (ballBrickLoop sq l s).2.ball.fireball = s.ball.fireball ∧
    (ballBrickLoop sq l s).2.ball.throughTimer = s.ball.throughTimer ∧
    (ballBrickLoop sq l s).2.ball.fireballTimer = s.ball.fireballTimer ∧
    (ballBrickLoop sq l s).2.ball.radius = s.ball.radius := by
  induction l with
  | nil =>
    intro s
    simp [ballBrickLoop]
  | cons br rest ih =>
    intro s
    by_cases ha : br.alive = true
    · cases hcol : aabbCircleCollisionQ sq br.x br.y br.w br.h s.ball.pos s.ball.radius with
      | none => simp [ballBrickLoop, ha, hcol, ih s]
      | some np =>
        obtain ⟨bn, bpen⟩ := np
        by_cases hd : 0 < br.hp ∧ br.hp ≤ 1
        · obtain ⟨pk1, rg1, hm⟩ := maybeSpawnPerk_shape (damageBrick br)
            {s with score := s.score + br.score}
          by_cases ht : s.ball.through = true ∨ s.ball.fireball = true
          · simp [ballBrickLoop, ha, hcol, hd, hm, ht,
              ih {s with score := s.score + br.score, perks := pk1, rng := rg1}]
          · simp [ballBrickLoop, ha, hcol, hd, hm, ht, reflectBallQ_frame,
              ih {s with
                score := s.score + br.score, perks := pk1, rng := rg1,
                ball := reflectBallQ sq
                  {s.ball with pos := vadd s.ball.pos (vscale bn bpen)} bn}]
        · by_cases ht : s.ball.through = true ∨ s.ball.fireball = true
          · simp [ballBrickLoop, ha, hcol, hd, ht,
              ih {s with score := s.score + br.score}]
          · simp [ballBrickLoop, ha, hcol, hd, ht, reflectBallQ_frame,
              ih {s with
                score := s.score + br.score,
                ball := reflectBallQ sq
                  {s.ball with pos := vadd s.ball.pos (vscale bn bpen)} bn}]
    · simp [ballBrickLoop, ha, ih s]

lemma applyPerk_frame (t : PerkType) (s : GS) :
    (applyPerk t s).bricks = s.bricks ∧ (applyPerk t s).bullets = s.bullets ∧
    (applyPerk t s).rng = s.rng ∧ (applyPerk t s).score = s.score ∧
    (applyPerk t s).scrW = s.scrW ∧ (applyPerk t s).scrH = s.scrH ∧
    (applyPerk t s).playTime = s.playTime ∧ (applyPerk t s).perks = s.perks ∧
    (applyPerk t s).ball.stuck = s.ball.stuck ∧ (applyPerk t s).ball.pos = s.ball.pos ∧
    (applyPerk t s).ball.vel = s.ball.vel ∧ (applyPerk t s).ball.radius = s.ball.radius ∧
    (applyPerk t s).paddle.pos = s.paddle.pos ∧ (applyPerk t s).paddle.h = s.paddle.h ∧
    (applyPerk t s).paddle.speed = s.paddle.speed ∧
    (applyPerk t s).globalSpeedGain = s.globalSpeedGain ∧
    (applyPerk t s).hasLaunched = s.hasLaunched ∧
    (applyPerk t s).leftHeld = s.leftHeld ∧ (applyPerk t s).rightHeld = s.rightHeld := by
  cases t <;> simp [applyPerk, saveHighScore, MAX_LIVES]

lemma perkLoop_proj (dt : ℚ) (l : List Perk) : ∀ s : GS,
    (perkLoop dt l s).2.1.bricks = s.bricks ∧
    (perkLoop dt l s).2.1.bullets = s.bullets ∧
    (perkLoop dt l s).2.1.rng = s.rng ∧
    (perkLoop dt l s).2.1.score = s.score ∧
    (perkLoop dt l s).2.1.perks = s.perks ∧
    (perkLoop dt l s).2.1.scrW = s.scrW ∧
    (perkLoop dt l s).2.1.scrH = s.scrH ∧
    (perkLoop dt l s).2.1.playTime = s.playTime ∧
    (perkLoop dt l s).2.1.ball.stuck = s.ball.stuck ∧
    (perkLoop dt l s).2.1.ball.pos = s.ball.pos ∧
    (perkLoop dt l s).2.1.ball.vel = s.ball.vel ∧
    (perkLoop dt l s).2.1.ball.radius = s.ball.radius ∧
    (perkLoop dt l s).2.1.paddle.pos = s.paddle.pos ∧
    (perkLoop dt l s).2.1.paddle.h = s.paddle.h ∧
    (perkLoop dt l s).2.1.paddle.speed = s.paddle.speed ∧
    (perkLoop dt l s).2.1.globalSpeedGain = s.globalSpeedGain ∧
    (perkLoop dt l s).2.1.hasLaunched = s.hasLaunched := by
  induction l with
  | nil =>
    intro s
    simp [perkLoop]
  | cons p rest ih =>
    intro s
    by_cases pa : p.alive = true
    · by_cases hy : (vadd p.pos (vscale p.vel dt)).y < -30
      · simp [perkLoop, pa, hy, ih]
      · by_cases ho : |(vadd p.pos (vscale p.vel dt)).x - s.paddle.pos.x| ≤
            s.paddle.w/2 + p.size/2 ∧
            |(vadd p.pos (vscale p.vel dt)).y - s.paddle.pos.y| ≤
            s.paddle.h/2 + p.size/2
        · by_cases hl : (applyPerk p.type s).lives ≤ 0
          · simp [perkLoop, pa, hy, ho, hl, applyPerk_frame]
          · simp [perkLoop, pa, hy, ho, hl, ih, applyPerk_frame]
        · simp [perkLoop, pa, hy, ho, ih]
    · simp [perkLoop, pa, ih]

lemma bulletScan_proj (bu : Bullet) (l : List Brick) : ∀ s : GS,
    (bulletScan bu l s).2.2.ball = s.ball ∧
    (bulletScan bu l s).2.2.paddle = s.paddle ∧
    (bulletScan bu l s).2.2.lives = s.lives ∧
    (bulletScan bu l s).2.2.current = s.current ∧
    (bulletScan bu l s).2.2.history = s.history ∧
    (bulletScan bu l s).2.2.canResume = s.canResume ∧
    (bulletScan bu l s).2.2.bullets = s.bullets ∧
    (bulletScan bu l s).2.2.bricks = s.bricks ∧
    (bulletScan bu l s).2.2.scrW = s.scrW ∧
    (bulletScan bu l s).2.2.scrH = s.scrH ∧
    (bulletScan bu l s).2.2.playTime = s.playTime ∧
    (bulletScan bu l s).2.2.globalSpeedGain = s.globalSpeedGain := by
  induction l with
  | nil =>
    intro s
    simp [bulletScan]
  | cons br rest ih =>
    intro s
    by_cases ha : br.alive = true
    · by_cases ho : |bu.pos.x - br.x| ≤ br.w/2 ∧ |bu.pos.y - br.y| ≤ br.h/2
      · by_cases hd : 0 < br.hp ∧ br.hp ≤ 1
        · obtain ⟨pk1, rg1, hm⟩ := maybeSpawnPerk_shape (damageBrick br)
            {s with score := s.score + br.score}
          simp [bulletScan, ha, ho, hd, hm]
        · simp [bulletScan, ha, ho, hd]
      · simp [bulletScan, ha, ho, ih]
    · simp [bulletScan, ha, ih]

lemma bulletLoop_proj (dt : ℚ) (l : List Bullet) : ∀ s : GS,
    (bulletLoop dt l s).2.ball = s.ball ∧
    (bulletLoop dt l s).2.paddle = s.paddle ∧
    (bulletLoop dt l s).2.lives = s.lives ∧
    (bulletLoop dt l s).2.current = s.current ∧
    (bulletLoop dt l s).2.history = s.history ∧
    (bulletLoop dt l s).2.canResume = s.canResume ∧
    (bulletLoop dt l s).2.scrW = s.scrW ∧
    (bulletLoop dt l s).2.scrH = s.scrH ∧
    (bulletLoop dt l s).2.playTime = s.playTime ∧
    (bulletLoop dt l s).2.globalSpeedGain = s.globalSpeedGain := by
  induction l with
  | nil =>
    intro s
    simp [bulletLoop]
  | cons bu rest ih =>
    intro s
    by_cases ba : bu.alive = true
    · by_cases hy : s.scrH + 20 < (vadd bu.pos (vscale bu.vel dt)).y
      · simp [bulletLoop, ba, hy, ih]
      · simp [bulletLoop, ba, hy, ih, bulletScan_proj]
    · simp [bulletLoop, ba, ih]

lemma moveBall_frame (dt : ℚ) (b : Ball) :
    (moveBall dt b).speed = b.speed ∧ (moveBall dt b).radius = b.radius ∧
    (moveBall dt b).stuck = b.stuck ∧ (moveBall dt b).vel = b.vel ∧
    (moveBall dt b).through = b.through ∧ (moveBall dt b).fireball = b.fireball ∧
    (moveBall dt b).throughTimer = b.throughTimer ∧
    (moveBall dt b).fireballTimer = b.fireballTimer ∧
    (moveBall dt b).pos = vadd b.pos (vscale b.vel dt) :=
  ⟨rfl, rfl, rfl, rfl, rfl, rfl, rfl, rfl, rfl⟩

lemma wallBounce_frame (W H : ℚ) (b : Ball) :
    (wallBounce W H b).speed = b.speed ∧ (wallBounce W H b).radius = b.radius ∧
    (wallBounce W H b).stuck = b.stuck ∧ (wallBounce W H b).through = b.through ∧
    (wallBounce W H b).fireball = b.fireball ∧
    (wallBounce W H b).throughTimer = b.throughTimer ∧
    (wallBounce W H b).fireballTimer = b.fireballTimer ∧
    (wallBounce W H b).pos.y =
      (if H < b.pos.y + b.radius then H - b.radius else b.pos.y) := by
  simp only [wallBounce]
  split_ifs <;> simp_all

lemma paddleBounce_frame (sq : ℚ → ℚ) (s : GS) :
    (paddleBounce sq s).ball.speed = s.ball.speed ∧
    (paddleBounce sq s).ball.stuck = s.ball.stuck ∧
    (paddleBounce sq s).ball.through = s.ball.through ∧
    (paddleBounce sq s).ball.fireball = s.ball.fireball ∧
    (paddleBounce sq s).ball.throughTimer = s.ball.throughTimer ∧
    (paddleBounce sq s).ball.fireballTimer = s.ball.fireballTimer ∧
    (paddleBounce sq s).ball.radius = s.ball.radius ∧
    (paddleBounce sq s).paddle = s.paddle ∧ (paddleBounce sq s).lives = s.lives ∧
    (paddleBounce sq s).current = s.current ∧
    (paddleBounce sq s).history = s.history ∧
    (paddleBounce sq s).canResume = s.canResume ∧
    (paddleBounce sq s).bricks = s.bricks ∧ (paddleBounce sq s).perks = s.perks ∧
    (paddleBounce sq s).bullets = s.bullets ∧ (paddleBounce sq s).rng = s.rng ∧
    (paddleBounce sq s).scrW = s.scrW ∧ (paddleBounce sq s).scrH = s.scrH ∧
    (paddleBounce sq s).playTime = s.playTime ∧
    (paddleBounce sq s).score = s.score ∧
    (paddleBounce sq s).globalSpeedGain = s.globalSpeedGain := by
  cases hcol : aabbCircleCollisionQ sq s.paddle.pos.x s.paddle.pos.y
      s.paddle.w s.paddle.h s.ball.pos s.ball.radius with
  | none => simp [paddleBounce, hcol]
  | some np => simp [paddleBounce, hcol]

lemma winCheck_frame (s : GS) :
    (winCheck s).ball = s.ball ∧ (winCheck s).paddle = s.paddle ∧
    (winCheck s).lives = s.lives ∧ (winCheck s).bricks = s.bricks ∧
    (winCheck s).perks = s.perks ∧ (winCheck s).bullets = s.bullets ∧
    (winCheck s).score = s.score ∧ (winCheck s).rng = s.rng ∧
    (winCheck s).scrW = s.scrW ∧ (winCheck s).scrH = s.scrH ∧
    (winCheck s).globalSpeedGain = s.globalSpeedGain := by
  simp only [winCheck, saveHighScore]
  split_ifs <;> simp

lemma applyPerk_speed (t : PerkType) (s : GS) (h : 0 ≤ s.ball.speed) :
    s.ball.speed ≤ (applyPerk t s).ball.speed ∧ 0 ≤ (applyPerk t s).ball.speed := by
  cases t <;> refine ⟨?_, ?_⟩ <;> simp [applyPerk, saveHighScore, MAX_LIVES] <;> linarith

lemma perkLoop_speed (dt : ℚ) (l : List Perk) : ∀ s : GS, 0 ≤ s.ball.speed →
    s.ball.speed ≤ (perkLoop dt l s).2.1.ball.speed ∧
    0 ≤ (perkLoop dt l s).2.1.ball.speed := by
  induction l with
  | nil =>
    intro s h
    simpa [perkLoop] using h
  | cons p rest ih =>
    intro s h
    by_cases pa : p.alive = true
    · by_cases hy : (vadd p.pos (vscale p.vel dt)).y < -30
      · simpa [perkLoop, pa, hy] using ih s h
      · by_cases ho : |(vadd p.pos (vscale p.vel dt)).x - s.paddle.pos.x| ≤
            s.paddle.w/2 + p.size/2 ∧
            |(vadd p.pos (vscale p.vel dt)).y - s.paddle.pos.y| ≤
            s.paddle.h/2 + p.size/2
        · have hap := applyPerk_speed p.type s h
          by_cases hl : (applyPerk p.type s).lives ≤ 0
          · simpa [perkLoop, pa, hy, ho, hl] using hap
          · have hrec := ih (applyPerk p.type s) hap.2
            refine ⟨?_, ?_⟩ <;> simp only [perkLoop, pa, hy, ho, hl] <;>
              simp only [if_true, if_false, if_neg hl, if_pos pa] <;>
              simp [pa, hy, ho, hl]
            · exact le_trans hap.1 hrec.1
            · exact hrec.2
        · simpa [perkLoop, pa, hy, ho] using ih s h
    · simpa [perkLoop, pa] using ih s h

lemma stepBall_speed (sq : ℚ → ℚ) (dt : ℚ) (s : GS)
    (hnl : ¬ (ballFell dt s ∧ 2 ≤ s.lives)) :
    (stepBall sq dt s).2.ball.speed = s.ball.speed := by
  by_cases hst : s.ball.stuck = true
  · simp [stepBall, hst]
  · have hstf : s.ball.stuck = false := by
      cases hb : s.ball.stuck
      · rfl
      · exact absurd hb hst
    have hy : (wallBounce s.scrW s.scrH (moveBall dt s.ball)).pos.y =
        (if s.scrH < s.ball.pos.y + s.ball.vel.y * dt + s.ball.radius then
          s.scrH - s.ball.radius else s.ball.pos.y + s.ball.vel.y * dt) := by
      have h1 := (wallBounce_frame s.scrW s.scrH (moveBall dt s.ball)).2.2.2.2.2.2.2
      rw [h1]
      simp [moveBall, vadd, vscale]
    have hrad : (wallBounce s.scrW s.scrH (moveBall dt s.ball)).radius = s.ball.radius :=
      (wallBounce_frame s.scrW s.scrH (moveBall dt s.ball)).2.1
    have hspd : (wallBounce s.scrW s.scrH (moveBall dt s.ball)).speed = s.ball.speed :=
      (wallBounce_frame s.scrW s.scrH (moveBall dt s.ball)).1
    by_cases hf : (wallBounce s.scrW s.scrH (moveBall dt s.ball)).pos.y -
        (wallBounce s.scrW s.scrH (moveBall dt s.ball)).radius < 0
    · have hfell : ballFell dt s := by
        refine ⟨hstf, ?_⟩
        rw [hy, hrad] at hf
        exact hf
      have hlt : s.lives ≤ 1 := by
        by_contra hc
        exact hnl ⟨hfell, by omega⟩
      have hterm := loseLife_terminal
        {s with ball := wallBounce s.scrW s.scrH (moveBall dt s.ball)} (by exact hlt)
      simp [stepBall, hst, hf, hterm, hspd]
    · have h1 := (ballBrickLoop_proj sq
        (paddleBounce sq {s with ball := wallBounce s.scrW s.scrH (moveBall dt s.ball)}).bricks
        (paddleBounce sq {s with ball := wallBounce s.scrW s.scrH (moveBall dt s.ball)})).2.2.2.2.2.2.2.2.2.2.2.1
      have h2 := (paddleBounce_frame sq
        {s with ball := wallBounce s.scrW s.scrH (moveBall dt s.ball)}).1
      simp [stepBall, hst, hf, h1, h2, hspd]

lemma applyPerk_paddle (t : PerkType) (s : GS) (hne : t ≠ PerkType.WIDE_PADDLE) :
    (applyPerk t s).paddle.pos = s.paddle.pos ∧
    (60 ≤ s.paddle.w →
      (applyPerk t s).paddle.w ≤ s.paddle.w ∧ 60 ≤ (applyPerk t s).paddle.w) := by
  cases t
  case WIDE_PADDLE => exact absurd rfl hne
  case SHRINK_PADDLE =>
    refine ⟨rfl, fun h => ?_⟩
    simp only [applyPerk]
    split_ifs with hw <;> constructor <;> linarith
  all_goals exact ⟨rfl, fun h => ⟨le_refl _, h⟩⟩

lemma ballBrickLoop_noSpawn (sq : ℚ → ℚ) (l : List Brick) : ∀ s : GS, rngNoSpawn s →
    (ballBrickLoop sq l s).2.perks = s.perks ∧ rngNoSpawn (ballBrickLoop sq l s).2 := by
  induction l with
  | nil =>
    intro s h
    exact ⟨rfl, h⟩
  | cons br rest ih =>
    intro s h
    by_cases ha : br.alive = true
    · cases hcol : aabbCircleCollisionQ sq br.x br.y br.w br.h s.ball.pos s.ball.radius with
      | none => simpa [ballBrickLoop, ha, hcol] using ih s h
      | some np =>
        obtain ⟨bn, bpen⟩ := np
        by_cases hd : 0 < br.hp ∧ br.hp ≤ 1
        · have hm := maybeSpawnPerk_noSpawn (damageBrick br)
            {s with score := s.score + br.score} (by exact h)
          obtain ⟨pk1, rg1, hsh⟩ := maybeSpawnPerk_shape (damageBrick br)
            {s with score := s.score + br.score}
          have hpk1 : pk1 = s.perks := by
            have := hm.1
            rw [hsh] at this
            exact this
          have hrg1 : rngNoSpawn ({s with
              score := s.score + br.score, perks := pk1, rng := rg1} : GS) := by
            have := hm.2
            rw [hsh] at this
            exact this
          subst hpk1
          by_cases ht : s.ball.through = true ∨ s.ball.fireball = true
          · have hrec := ih {s with
              score := s.score + br.score, perks := s.perks, rng := rg1} hrg1
            simpa [ballBrickLoop, ha, hcol, hd, hsh, ht] using hrec
          · have hrec := ih {s with
              score := s.score + br.score, perks := s.perks, rng := rg1,
              ball := reflectBallQ sq
                {s.ball with pos := vadd s.ball.pos (vscale bn bpen)} bn} hrg1
            simpa [ballBrickLoop, ha, hcol, hd, hsh, ht] using hrec
        · by_cases ht : s.ball.through = true ∨ s.ball.fireball = true
          · have hrec := ih {s with score := s.score + br.score} (by exact h)
            simpa [ballBrickLoop, ha, hcol, hd, ht] using hrec
          · have hrec := ih {s with
              score := s.score + br.score,
              ball := reflectBallQ sq
                {s.ball with pos := vadd s.ball.pos (vscale bn bpen)} bn} (by exact h)
            simpa [ballBrickLoop, ha, hcol, hd, ht] using hrec
    · simpa [ballBrickLoop, ha] using ih s h

lemma perkLoop_paddle (dt : ℚ) (l : List Perk) : ∀ s : GS,
    (∀ p ∈ l, p.alive = true → p.type ≠ PerkType.WIDE_PADDLE) →
    60 ≤ s.paddle.w → s.paddle.w + 12 ≤ s.scrW → 132 ≤ s.scrW → paddleInBounds s →
    60 ≤ (perkLoop dt l s).2.1.paddle.w ∧
    (perkLoop dt l s).2.1.paddle.w + 12 ≤ (perkLoop dt l s).2.1.scrW ∧
    paddleInBounds (perkLoop dt l s).2.1 := by
  induction l with
  | nil =>
    intro s hl h60 h12 h132 hin
    simpa [perkLoop] using ⟨h60, h12, hin⟩
  | cons p rest ih =>
    intro s hl h60 h12 h132 hin
    have hl1 : ∀ q ∈ rest, q.alive = true → q.type ≠ PerkType.WIDE_PADDLE :=
      fun q hq => hl q (List.mem_cons_of_mem p hq)
    by_cases pa : p.alive = true
    · by_cases hy : (vadd p.pos (vscale p.vel dt)).y < -30
      · simpa [perkLoop, pa, hy] using ih s hl1 h60 h12 h132 hin
      · by_cases ho : |(vadd p.pos (vscale p.vel dt)).x - s.paddle.pos.x| ≤
            s.paddle.w/2 + p.size/2 ∧
            |(vadd p.pos (vscale p.vel dt)).y - s.paddle.pos.y| ≤
            s.paddle.h/2 + p.size/2
        · have hne : p.type ≠ PerkType.WIDE_PADDLE := hl p (List.mem_cons_self p rest) pa
          have hap := applyPerk_paddle p.type s hne
          have hw := hap.2 h60
          have hscr : (applyPerk p.type s).scrW = s.scrW :=
            (applyPerk_frame p.type s).2.2.2.2.1
          have h60a : 60 ≤ (applyPerk p.type s).paddle.w := hw.2
          have h12a : (applyPerk p.type s).paddle.w + 12 ≤ (applyPerk p.type s).scrW := by
            rw [hscr]
            linarith [hw.1]
          have h132a : 132 ≤ (applyPerk p.type s).scrW := by rw [hscr]; exact h132
          have hina : paddleInBounds (applyPerk p.type s) := by
            unfold paddleInBounds at hin ⊢
            rw [hap.1, hscr]
            constructor <;> linarith [hw.1, hin.1, hin.2]
          by_cases hlv : (applyPerk p.type s).lives ≤ 0
          · simpa [perkLoop, pa, hy, ho, hlv] using ⟨h60a, h12a, hina⟩
          · simpa [perkLoop, pa, hy, ho, hlv] using
              ih (applyPerk p.type s) hl1 h60a h12a h132a hina
        · simpa [perkLoop, pa, hy, ho] using ih s hl1 h60 h12 h132 hin
    · simpa [perkLoop, pa] using ih s hl1 h60 h12 h132 hin

lemma stepBall_paddle (sq : ℚ → ℚ) (dt : ℚ) (s : GS)
    (h60 : 60 ≤ s.paddle.w) (h12 : s.paddle.w + 12 ≤ s.scrW) (h132 : 132 ≤ s.scrW)
    (hin : paddleInBounds s) :
    60 ≤ (stepBall sq dt s).2.paddle.w ∧
    (stepBall sq dt s).2.paddle.w + 12 ≤ (stepBall sq dt s).2.scrW ∧
    132 ≤ (stepBall sq dt s).2.scrW ∧
    paddleInBounds (stepBall sq dt s).2 := by
  obtain ⟨hin1, hin2⟩ := hin
  by_cases hst : s.ball.stuck = true
  · refine ⟨?_, ?_, ?_, ?_, ?_⟩ <;> simp [stepBall, hst, paddleInBounds] <;> linarith
  · by_cases hf : (wallBounce s.scrW s.scrH (moveBall dt s.ball)).pos.y -
        (wallBounce s.scrW s.scrH (moveBall dt s.ball)).radius < 0
    · by_cases hl : s.lives ≤ 1
      · have hterm := loseLife_terminal
          {s with ball := wallBounce s.scrW s.scrH (moveBall dt s.ball)} (by exact hl)
        refine ⟨?_, ?_, ?_, ?_, ?_⟩ <;>
          simp [stepBall, hst, hf, hterm, paddleInBounds] <;> linarith
      · have hres := loseLife_reset
          {s with ball := wallBounce s.scrW s.scrH (moveBall dt s.ball)}
          (by exact (by omega : (2:ℤ) ≤ s.lives))
        refine ⟨?_, ?_, ?_, ?_, ?_⟩ <;>
          simp [stepBall, hst, hf, hres, paddleInBounds] <;> linarith
    · refine ⟨?_, ?_, ?_, ?_, ?_⟩ <;>
        simp [stepBall, hst, hf, paddleInBounds, ballBrickLoop_proj,
          paddleBounce_frame] <;> linarith

lemma stepBall_perks (sq : ℚ → ℚ) (dt : ℚ) (s : GS) (hr : rngNoSpawn s) :
    (stepBall sq dt s).2.perks = s.perks ∧ rngNoSpawn (stepBall sq dt s).2 := by
  by_cases hst : s.ball.stuck = true
  · constructor
    · simp [stepBall, hst]
    · simp only [stepBall, hst, eq_self_iff_true, if_true]
      exact hr
  · by_cases hf : (wallBounce s.scrW s.scrH (moveBall dt s.ball)).pos.y -
        (wallBounce s.scrW s.scrH (moveBall dt s.ball)).radius < 0
    · by_cases hl : s.lives ≤ 1
      · have hterm := loseLife_terminal
          {s with ball := wallBounce s.scrW s.scrH (moveBall dt s.ball)} (by exact hl)
        constructor
        · simp [stepBall, hst, hf, hterm]
        · unfold rngNoSpawn
          simp [stepBall, hst, hf, hterm]
          exact fun q hq => hr q hq
      · have hres := loseLife_reset
          {s with ball := wallBounce s.scrW s.scrH (moveBall dt s.ball)}
          (by exact (by omega : (2:ℤ) ≤ s.lives))
        constructor
        · simp [stepBall, hst, hf, hres]
        · unfold rngNoSpawn
          simp [stepBall, hst, hf, hres]
          exact fun q hq => hr q hq
    · have hP : rngNoSpawn (paddleBounce sq
          {s with ball := wallBounce s.scrW s.scrH (moveBall dt s.ball)}) := by
        unfold rngNoSpawn
        rw [(paddleBounce_frame sq
          {s with ball := wallBounce s.scrW s.scrH (moveBall dt s.ball)}).2.2.2.2.2.2.2.2.2.2.2.2.2.2.2.1]
        exact fun q hq => hr q hq
      have hbl := ballBrickLoop_noSpawn sq
        (paddleBounce sq {s with ball := wallBounce s.scrW s.scrH (moveBall dt s.ball)}).bricks
        (paddleBounce sq {s with ball := wallBounce s.scrW s.scrH (moveBall dt s.ball)}) hP
      have hPp : (paddleBounce sq
          {s with ball := wallBounce s.scrW s.scrH (moveBall dt s.ball)}).perks = s.perks :=
        (paddleBounce_frame sq
          {s with ball := wallBounce s.scrW s.scrH (moveBall dt s.ball)}).2.2.2.2.2.2.2.2.2.2.2.2.2.1
      constructor
      · simp only [stepBall, hst, if_false, Bool.false_eq_true, if_neg hf]
        rw [show ((false, ({(ballBrickLoop sq
            (paddleBounce sq {s with ball := wallBounce s.scrW s.scrH (moveBall dt s.ball)}).bricks
            (paddleBounce sq {s with ball := wallBounce s.scrW s.scrH (moveBall dt s.ball)})).2 with
            bricks := (ballBrickLoop sq
            (paddleBounce sq {s with ball := wallBounce s.scrW s.scrH (moveBall dt s.ball)}).bricks
            (paddleBounce sq {s with ball := wallBounce s.scrW s.scrH (moveBall dt s.ball)})).1} : GS)) :
            Bool × GS).2.perks = (ballBrickLoop sq
            (paddleBounce sq {s with ball := wallBounce s.scrW s.scrH (moveBall dt s.ball)}).bricks
            (paddleBounce sq {s with ball := wallBounce s.scrW s.scrH (moveBall dt s.ball)})).2.perks
          from rfl, hbl.1, hPp]
      · unfold rngNoSpawn
        simp only [stepBall, hst, if_false, Bool.false_eq_true, if_neg hf]
        exact fun q hq => hbl.2 q hq

lemma sqrt_millionth : Real.sqrt (1/1000000) = 1/1000 := by
  rw [show (1/1000000 : ℝ) = (1/1000)*(1/1000) by norm_num,
      Real.sqrt_mul_self (by norm_num)]

lemma clampv_shift (x lo hi k : ℝ) (hlo : lo ≤ hi) (hk : 0 ≤ k) :
    clampv (x + (x - clampv x lo hi) * k) lo hi = clampv x lo hi := by
  have hc : ∀ v : ℝ, clampv v lo hi = if v < lo then lo else if hi < v then hi else v :=
    fun v => rfl
  rcases lt_or_le x lo with hxlo | hxlo
  · have hx : clampv x lo hi = lo := by rw [hc, if_pos hxlo]
    have h0 : (x - lo)*k ≤ 0 := by nlinarith
    rw [hx, hc, if_pos (by linarith : x + (x - lo)*k < lo)]
  · rcases le_or_lt x hi with hxhi | hxhi
    · have hx : clampv x lo hi = x := by
        rw [hc, if_neg (not_lt.mpr hxlo), if_neg (not_lt.mpr hxhi)]
      rw [hx, sub_self, zero_mul, add_zero]
      exact hx
    · have hx : clampv x lo hi = hi := by rw [hc, if_neg (not_lt.mpr hxlo), if_pos hxhi]
      have h0 : 0 ≤ (x - hi)*k := mul_nonneg (by linarith) hk
      rw [hx, hc, if_neg (not_lt.mpr (by linarith : lo ≤ x + (x - hi)*k)),
          if_pos (by linarith : hi < x + (x - hi)*k)]

lemma corrected_dist (a b d r : ℝ) (hd : d*d = a*a + b*b) (hdpos : 0 < d) :
    (a + a/d*(r - d))*(a + a/d*(r - d)) + (b + b/d*(r - d))*(b + b/d*(r - d)) = r*r := by
  have h1 : a + a/d*(r - d) = a*r/d := by field_simp; ring
  have h2 : b + b/d*(r - d) = b*r/d := by field_simp; ring
  rw [h1, h2]
  have h3 : (a*r/d)*(a*r/d) + (b*r/d)*(b*r/d) = (a*a + b*b)*(r*r)/(d*d) := by ring
  rw [h3, ← hd, mul_comm (d*d) (r*r), mul_div_assoc,
      div_self (by positivity : d*d ≠ 0), mul_one]

/-- C7 counterexample: with the circle center exactly inside the box, the
code does not use the documented (0,1) fallback (the pre-sqrt clamp forces
d = 1e-3 > 1e-4, so that branch is unreachable): it returns normal (0,0)
and penetration r - 1e-3, the positional correction is therefore a no-op,
and re-testing the corrected position still reports penetration
9 - 1/1000, far above any epsilon. -/
theorem c7_counterexample :
    aabbCircleCollision 0 0 100 100 ⟨0, 0⟩ 9 = some (⟨0, 0⟩, 9 - 1/1000) ∧
    aabbCircleCollision 0 0 100 100
      ⟨0 + (0:ℝ) * (9 - 1/1000), 0 + (0:ℝ) * (9 - 1/1000)⟩ 9 =
      some (⟨0, 0⟩, 9 - 1/1000) ∧
    (1:ℝ)/1000 < 9 - 1/1000 ∧ ((⟨0, 0⟩ : Vec2R) ≠ (⟨0, 1⟩ : Vec2R)) := by
  have h1 : aabbCircleCollision 0 0 100 100 ⟨0, 0⟩ 9 = some (⟨0, 0⟩, 9 - 1/1000) := by
    have hs : Real.sqrt 1000000 = 1000 := by
      rw [show (1000000:ℝ) = 1000*1000 by norm_num, Real.sqrt_mul_self (by norm_num)]
    simp only [aabbCircleCollision, clampv]
    norm_num
    rw [hs]
    norm_num
  refine ⟨h1, ?_, by norm_num, by simp⟩
  rw [show (⟨0 + (0:ℝ) * (9 - 1/1000), 0 + (0:ℝ) * (9 - 1/1000)⟩ : Vec2R) =
        (⟨0, 0⟩ : Vec2R) by norm_num]
  exact h1

/-- C7 (amended): when the test reports a collision and the squared clamped
distance is at least 1e-6 (the non-degenerate case), re-testing the circle
position corrected by normal times penetration against the same box reports
a collision with penetration exactly 0 (in particular above -epsilon and at
most epsilon for every positive epsilon). In the excluded degenerate case
the returned normal is (0,0), not the documented (0,1) fallback, and the
correction is a no-op (see the counterexample). -/
theorem c7_collision_correction (rx ry rw rh : ℝ) (c : Vec2R) (r : ℝ)
    (hrw : 0 ≤ rw) (hrh : 0 ≤ rh) (hr : 0 ≤ r)
    (hlow : 1/1000000 ≤ clampedDist2 rx ry rw rh c)
    (hcol : clampedDist2 rx ry rw rh c ≤ r*r) :
    ∃ n p, aabbCircleCollision rx ry rw rh c r = some (n, p) ∧
      ∃ n2, aabbCircleCollision rx ry rw rh ⟨c.x + n.x*p, c.y + n.y*p⟩ r =
        some (n2, 0) := by
  simp only [clampedDist2] at hlow hcol
  obtain ⟨cx, hcx⟩ : ∃ t, clampv c.x (rx - rw/2) (rx + rw/2) = t := ⟨_, rfl⟩
  obtain ⟨cy, hcy⟩ : ∃ t, clampv c.y (ry - rh/2) (ry + rh/2) = t := ⟨_, rfl⟩
  rw [hcx, hcy] at hlow hcol
  have hd2nn : 0 ≤ (c.x - cx)*(c.x - cx) + (c.y - cy)*(c.y - cy) := by
    nlinarith [mul_self_nonneg (c.x - cx), mul_self_nonneg (c.y - cy)]
  obtain ⟨d, hd⟩ : ∃ t, Real.sqrt ((c.x - cx)*(c.x - cx) + (c.y - cy)*(c.y - cy)) = t :=
    ⟨_, rfl⟩
  have hdd : d*d = (c.x - cx)*(c.x - cx) + (c.y - cy)*(c.y - cy) := by
    rw [← hd]; exact Real.mul_self_sqrt hd2nn
  have hdpos : 0 < d := by
    rw [← hd]; exact Real.sqrt_pos.mpr (by linarith)
  have hdler : d ≤ r := by
    have h := Real.sqrt_le_sqrt hcol
    rwa [hd, Real.sqrt_mul_self hr] at h
  have hdgt : 1/10000 < d := by
    have h := Real.sqrt_le_sqrt hlow
    rw [hd, sqrt_millionth] at h
    linarith
  have hcall : aabbCircleCollision rx ry rw rh c r =
      some (⟨(c.x - cx)/d, (c.y - cy)/d⟩, r - d) := by
    simp only [aabbCircleCollision]
    rw [hcx, hcy, if_neg (not_lt.mpr hcol), if_neg (not_lt.mpr hlow), hd, if_pos hdgt]
  refine ⟨⟨(c.x - cx)/d, (c.y - cy)/d⟩, r - d, hcall, ?_⟩
  simp only [aabbCircleCollision]
  have hshx : clampv (c.x + (c.x - cx)/d*(r - d)) (rx - rw/2) (rx + rw/2) = cx := by
    rw [show c.x + (c.x - cx)/d*(r - d) =
          c.x + (c.x - clampv c.x (rx - rw/2) (rx + rw/2))*((r - d)/d) by
        rw [hcx]; ring]
    rw [clampv_shift _ _ _ _ (by linarith) (div_nonneg (by linarith) hdpos.le), hcx]
  have hshy : clampv (c.y + (c.y - cy)/d*(r - d)) (ry - rh/2) (ry + rh/2) = cy := by
    rw [show c.y + (c.y - cy)/d*(r - d) =
          c.y + (c.y - clampv c.y (ry - rh/2) (ry + rh/2))*((r - d)/d) by
        rw [hcy]; ring]
    rw [clampv_shift _ _ _ _ (by linarith) (div_nonneg (by linarith) hdpos.le), hcy]
  rw [hshx, hshy]
  have hsum : (c.x + (c.x - cx)/d*(r - d) - cx)*(c.x + (c.x - cx)/d*(r - d) - cx) +
      (c.y + (c.y - cy)/d*(r - d) - cy)*(c.y + (c.y - cy)/d*(r - d) - cy) = r*r := by
    have h := corrected_dist (c.x - cx) (c.y - cy) d r hdd hdpos
    calc (c.x + (c.x - cx)/d*(r - d) - cx)*(c.x + (c.x - cx)/d*(r - d) - cx) +
        (c.y + (c.y - cy)/d*(r - d) - cy)*(c.y + (c.y - cy)/d*(r - d) - cy)
        = ((c.x - cx) + (c.x - cx)/d*(r - d))*((c.x - cx) + (c.x - cx)/d*(r - d)) +
          ((c.y - cy) + (c.y - cy)/d*(r - d))*((c.y - cy) + (c.y - cy)/d*(r - d)) := by
          ring
      _ = r*r := h
  rw [hsum, if_neg (lt_irrefl (r*r)),
      if_neg (not_lt.mpr (le_trans hlow hcol)), Real.sqrt_mul_self hr, sub_self]
  exact ⟨_, rfl⟩

/-- C7 witness: box centered at the origin with half-extents 5, circle at
(0,8) with radius 9: the collision is reported with normal (0,1) and
penetration 6, and the corrected position (0,14) re-tests to penetration
exactly 0. -/
theorem c7_witness :
    ((0:ℝ) ≤ 10 ∧ (0:ℝ) ≤ 9 ∧
     1/1000000 ≤ clampedDist2 0 0 10 10 ⟨0, 8⟩ ∧
     clampedDist2 0 0 10 10 ⟨0, 8⟩ ≤ (9:ℝ)*9) ∧
    (∃ n p, aabbCircleCollision 0 0 10 10 ⟨0, 8⟩ 9 = some (n, p) ∧
      ∃ n2, aabbCircleCollision 0 0 10 10 ⟨(0:ℝ) + n.x*p, 8 + n.y*p⟩ 9 =
        some (n2, 0)) := by
  have hd2 : clampedDist2 0 0 10 10 ⟨0, 8⟩ = 9 := by
    simp only [clampedDist2, clampv]
    norm_num
  refine ⟨⟨by norm_num, by norm_num, by rw [hd2]; norm_num, by rw [hd2]; norm_num⟩, ?_⟩
  exact c7_collision_correction 0 0 10 10 ⟨0, 8⟩ 9 (by norm_num) (by norm_num)
    (by norm_num) (by rw [hd2]; norm_num) (by rw [hd2]; norm_num)

/-- C4 counterexample: a SPEED_UP-boosted ball (speed 400) that falls off
the bottom with lives remaining is reset to the 320 baseline by
resetBallOnPaddle inside the same updateGame step, so ball.speed decreases
across updateGame steps with no intervening newGame. -/
theorem c4_counterexample :
    (updateGame sqZero 0 cexSpeed).ball.speed < cexSpeed.ball.speed := by
  norm_num [updateGame, stepTimers, stepPaddleMove, stepBall, moveBall, wallBounce,
    updBallTimers, updPaddleTimers, clampv, vadd, vscale, loseLife, resetBallOnPaddle,
    saveHighScore, cexSpeed]

/-- C4 (amended): within a session, ball.speed is non-decreasing across
updateGame steps except at a non-terminal bottom-boundary life loss, where
resetBallOnPaddle sets it back to the baseline 320 plus the accumulated
global gain (which can be lower than the current speed, see the
counterexample); formally, any step that does not lose the ball at the
bottom with at least 2 lives is non-decreasing. -/
theorem c4_speed_monotone (sq : ℚ → ℚ) (dt : ℚ) (s : GS) (hdt : 0 ≤ dt)
    (hsp : 0 ≤ s.ball.speed) (hnl : ¬ (ballFell dt s ∧ 2 ≤ s.lives)) :
    s.ball.speed ≤ (updateGame sq dt s).ball.speed := by
  have hfell : ballFell dt (stepPaddleMove dt (stepTimers dt s)) ↔ ballFell dt s := by
    unfold ballFell
    simp [stepPaddleMove_frame, stepTimers_ball, stepTimers_frame]
  have hlives : (stepPaddleMove dt (stepTimers dt s)).lives = s.lives := by
    simp [stepPaddleMove_frame, stepTimers_frame]
  have hnl1 : ¬ (ballFell dt (stepPaddleMove dt (stepTimers dt s)) ∧
      2 ≤ (stepPaddleMove dt (stepTimers dt s)).lives) := by
    rw [hfell, hlives]
    exact hnl
  have hs1 : (stepPaddleMove dt (stepTimers dt s)).ball.speed = s.ball.speed + dt*4 := by
    simp [stepPaddleMove_frame, stepTimers_ball]
  have hsb := stepBall_speed sq dt (stepPaddleMove dt (stepTimers dt s)) hnl1
  have hbspeed : (stepBall sq dt (stepPaddleMove dt (stepTimers dt s))).2.ball.speed =
      s.ball.speed + dt*4 := by rw [hsb, hs1]
  have hb0 : 0 ≤ (stepBall sq dt (stepPaddleMove dt (stepTimers dt s))).2.ball.speed := by
    rw [hbspeed]
    linarith
  have hpl := perkLoop_speed dt
    (stepBall sq dt (stepPaddleMove dt (stepTimers dt s))).2.perks
    (stepBall sq dt (stepPaddleMove dt (stepTimers dt s))).2 hb0
  by_cases hb : (stepBall sq dt (stepPaddleMove dt (stepTimers dt s))).1 = true
  · simp [updateGame, hb, hbspeed]
    linarith
  · by_cases hpk : (perkLoop dt
        (stepBall sq dt (stepPaddleMove dt (stepTimers dt s))).2.perks
        (stepBall sq dt (stepPaddleMove dt (stepTimers dt s))).2).2.2 = true
    · simp [updateGame, hb, hpk]
      linarith [hpl.1, hbspeed]
    · simp [updateGame, hb, hpk, winCheck_frame, bulletLoop_proj]
      linarith [hpl.1, hbspeed]

/-- C4 witness: a step with a stuck ball (no bottom-boundary loss) at
dt = 1/100 keeps the speed non-decreasing. -/
theorem c4_witness :
    (0 ≤ (1:ℚ)/100 ∧ 0 ≤ cexWide.ball.speed ∧
      ¬ (ballFell (1/100) cexWide ∧ 2 ≤ cexWide.lives)) ∧
    cexWide.ball.speed ≤ (updateGame sqZero (1/100) cexWide).ball.speed :=
  ⟨⟨by norm_num, by norm_num [cexWide], by simp [ballFell, cexWide]⟩,
   c4_speed_monotone sqZero (1/100) cexWide (by norm_num) (by norm_num [cexWide])
     (by simp [ballFell, cexWide])⟩

/-- C5 counterexample: a WIDE_PADDLE perk collected while the paddle sits
at the right margin widens the paddle after the frame's clamp has already
run, leaving paddle.pos.x above the bound for the new width. -/
theorem c5_counterexample : ¬ paddleInBounds (updateGame sqZero 0 cexWide) := by
  unfold paddleInBounds
  norm_num [updateGame, stepTimers, stepPaddleMove, stepBall, moveBall, wallBounce,
    updBallTimers, updPaddleTimers, clampv, vadd, vscale, perkLoop, applyPerk,
    bulletLoop, winCheck, saveHighScore, MAX_LIVES, cexWide]

/-- C5 (amended): after an updateGame step, paddle.pos.x lies within
[w/2 + 6, scrW - w/2 - 6] for the resulting paddle width, for every dt and
any held-direction flags, provided the step collects no WIDE_PADDLE perk —
guaranteed here by having no live WIDE_PADDLE perk and no perk spawn (all
pending RNG draws at least 0.22); a WIDE_PADDLE pickup can violate the bound
for the new width until the next step's clamp (see the counterexample).
The width/screen hypotheses (60 ≤ w, w + 12 ≤ scrW, 132 ≤ scrW) hold in
every reachable play state (w ∈ [60, 320], scrW = 900). -/
theorem c5_paddle_clamp (sq : ℚ → ℚ) (dt : ℚ) (s : GS)
    (h60 : 60 ≤ s.paddle.w) (h12 : s.paddle.w + 12 ≤ s.scrW) (h132 : 132 ≤ s.scrW)
    (hwf : wideFree s) (hr : rngNoSpawn s) :
    paddleInBounds (updateGame sq dt s) := by
  have hswt : (stepTimers dt s).scrW = s.scrW := rfl
  have ht1 := stepTimers_paddle dt s
  have h60t : 60 ≤ (stepTimers dt s).paddle.w := by
    rcases ht1.2.2.2 with h | h <;> rw [h]
    · norm_num
    · exact h60
  have h12t : (stepTimers dt s).paddle.w + 12 ≤ (stepTimers dt s).scrW := by
    rcases ht1.2.2.2 with h | h <;> rw [h, hswt] <;> linarith
  have h132t : 132 ≤ (stepTimers dt s).scrW := by rw [hswt]; exact h132
  have hmove := stepPaddleMove_x dt (stepTimers dt s) h12t
  have hin1 : paddleInBounds (stepPaddleMove dt (stepTimers dt s)) := by
    unfold paddleInBounds
    exact hmove
  have h601 : 60 ≤ (stepPaddleMove dt (stepTimers dt s)).paddle.w := h60t
  have h121 : (stepPaddleMove dt (stepTimers dt s)).paddle.w + 12 ≤
      (stepPaddleMove dt (stepTimers dt s)).scrW := h12t
  have h1321 : 132 ≤ (stepPaddleMove dt (stepTimers dt s)).scrW := h132t
  have hr1 : rngNoSpawn (stepPaddleMove dt (stepTimers dt s)) := hr
  have hb := stepBall_paddle sq dt (stepPaddleMove dt (stepTimers dt s))
    h601 h121 h1321 hin1
  have hbp := stepBall_perks sq dt (stepPaddleMove dt (stepTimers dt s)) hr1
  by_cases he : (stepBall sq dt (stepPaddleMove dt (stepTimers dt s))).1 = true
  · simp only [updateGame, he, if_true]
    exact hb.2.2.2
  · have hperks : (stepBall sq dt (stepPaddleMove dt (stepTimers dt s))).2.perks =
        s.perks := hbp.1
    have hlperk : ∀ p ∈ (stepBall sq dt (stepPaddleMove dt (stepTimers dt s))).2.perks,
        p.alive = true → p.type ≠ PerkType.WIDE_PADDLE := by
      intro p hp
      rw [hperks] at hp
      exact hwf p hp
    have hpl := perkLoop_paddle dt
      (stepBall sq dt (stepPaddleMove dt (stepTimers dt s))).2.perks
      (stepBall sq dt (stepPaddleMove dt (stepTimers dt s))).2
      hlperk hb.1 hb.2.1 hb.2.2.1 hb.2.2.2
    by_cases hpk : (perkLoop dt
        (stepBall sq dt (stepPaddleMove dt (stepTimers dt s))).2.perks
        (stepBall sq dt (stepPaddleMove dt (stepTimers dt s))).2).2.2 = true
    · simp only [updateGame, he, hpk, if_true, Bool.false_eq_true, if_false]
      exact hpl.2.2
    · have hconc := hpl.2.2
      unfold paddleInBounds at hconc ⊢
      simp only [updateGame, he, hpk, Bool.false_eq_true, if_false]
      simp [winCheck_frame, bulletLoop_proj]
      constructor <;> linarith [hconc.1, hconc.2]

/-- C5 witness: a clean step (no live perks, empty RNG stream) from a
900-wide screen with the default 120 paddle keeps the paddle in bounds. -/
theorem c5_witness :
    (60 ≤ cexSpeed.paddle.w ∧ cexSpeed.paddle.w + 12 ≤ cexSpeed.scrW ∧
      132 ≤ cexSpeed.scrW ∧ wideFree cexSpeed ∧ rngNoSpawn cexSpeed) ∧
    paddleInBounds (updateGame sqZero (1/50) cexSpeed) :=
  ⟨⟨by norm_num [cexSpeed], by norm_num [cexSpeed], by norm_num [cexSpeed],
    by simp [wideFree, cexSpeed], by simp [rngNoSpawn, cexSpeed]⟩,
   c5_paddle_clamp sqZero (1/50) cexSpeed (by norm_num [cexSpeed])
     (by norm_num [cexSpeed]) (by norm_num [cexSpeed])
     (by simp [wideFree, cexSpeed]) (by simp [rngNoSpawn, cexSpeed])⟩

lemma FbInvB_of_eq {b b' : Ball} (h : FbInvB b) (h1 : b'.through = b.through)
    (h2 : b'.fireball = b.fireball) (h3 : b'.throughTimer = b.throughTimer)
    (h4 : b'.fireballTimer = b.fireballTimer) : FbInvB b' := by
  unfold FbInvB at h ⊢
  rw [h1, h2, h3, h4]
  exact h

lemma updBallTimers_fb (dt : ℚ) (b : Ball) (hdt : 0 ≤ dt) (h : FbInvB b) :
    FbInvB (updBallTimers dt b) := by
  unfold FbInvB at h ⊢
  by_cases hf : b.fireball = true
  · obtain ⟨h1, h2, h3⟩ := h hf
    simp only [updBallTimers]
    split_ifs <;> simp_all <;> linarith
  · simp only [updBallTimers]
    split_ifs <;> simp_all

lemma applyPerk_lives (t : PerkType) (s : GS) :
    (0 ≤ s.lives → 0 ≤ (applyPerk t s).lives) ∧
    (s.lives ≤ 5 → (applyPerk t s).lives ≤ 5) := by
  cases t <;> constructor <;> intro h <;>
    simp [applyPerk, saveHighScore, MAX_LIVES] <;> omega

lemma applyPerk_lives01 (t : PerkType) (s : GS) (h : 1 ≤ s.lives) :
    1 ≤ (applyPerk t s).lives ∨
    ((applyPerk t s).lives = 0 ∧ (applyPerk t s).current = Screen.GAMEOVER ∧
     (applyPerk t s).canResume = false) := by
  cases t <;> simp [applyPerk, saveHighScore, MAX_LIVES] <;> omega

lemma saveHighScore_ball (s : GS) : (saveHighScore s).ball = s.ball := rfl

lemma applyPerk_fb (t : PerkType) (s : GS) (h : FbInv s) : FbInv (applyPerk t s) := by
  have hb := h
  unfold FbInv at hb ⊢
  cases t
  case EXTRA_LIFE => exact FbInvB_of_eq hb rfl rfl rfl rfl
  case SPEED_UP => exact FbInvB_of_eq hb rfl rfl rfl rfl
  case WIDE_PADDLE => exact FbInvB_of_eq hb rfl rfl rfl rfl
  case SHRINK_PADDLE => exact FbInvB_of_eq hb rfl rfl rfl rfl
  case SHOOTING_PADDLE => exact FbInvB_of_eq hb rfl rfl rfl rfl
  case INSTANT_DEATH =>
    exact FbInvB_of_eq hb (by rw [applyPerk, saveHighScore_ball])
      (by rw [applyPerk, saveHighScore_ball]) (by rw [applyPerk, saveHighScore_ball])
      (by rw [applyPerk, saveHighScore_ball])
  case THROUGH_BALL =>
    unfold FbInvB at hb ⊢
    intro hf
    simp only [applyPerk] at hf ⊢
    obtain ⟨a, b2, c⟩ := hb hf
    exact ⟨trivial, by linarith, c⟩
  case FIREBALL =>
    unfold FbInvB at hb ⊢
    intro hf
    simp only [applyPerk]
    refine ⟨trivial, ?_, le_refl _⟩
    split_ifs with hw
    · exact le_refl _
    · linarith

lemma perkLoop_lives (dt : ℚ) (l : List Perk) : ∀ s : GS, 0 ≤ s.lives → s.lives ≤ 5 →
    0 ≤ (perkLoop dt l s).2.1.lives ∧ (perkLoop dt l s).2.1.lives ≤ 5 := by
  induction l with
  | nil =>
    intro s h0 h5
    simpa [perkLoop] using ⟨h0, h5⟩
  | cons p rest ih =>
    intro s h0 h5
    by_cases pa : p.alive = true
    · by_cases hy : (vadd p.pos (vscale p.vel dt)).y < -30
      · simpa [perkLoop, pa, hy] using ih s h0 h5
      · by_cases ho : |(vadd p.pos (vscale p.vel dt)).x - s.paddle.pos.x| ≤
            s.paddle.w/2 + p.size/2 ∧
            |(vadd p.pos (vscale p.vel dt)).y - s.paddle.pos.y| ≤
            s.paddle.h/2 + p.size/2
        · have hap := applyPerk_lives p.type s
          by_cases hl : (applyPerk p.type s).lives ≤ 0
          · simpa [perkLoop, pa, hy, ho, hl] using ⟨hap.1 h0, hap.2 h5⟩
          · simpa [perkLoop, pa, hy, ho, hl] using
              ih (applyPerk p.type s) (hap.1 h0) (hap.2 h5)
        · simpa [perkLoop, pa, hy, ho] using ih s h0 h5
    · simpa [perkLoop, pa] using ih s h0 h5

lemma perkLoop_lives01 (dt : ℚ) (l : List Perk) : ∀ s : GS, 1 ≤ s.lives →
    1 ≤ (perkLoop dt l s).2.1.lives ∨
    ((perkLoop dt l s).2.1.lives = 0 ∧
     (perkLoop dt l s).2.1.current = Screen.GAMEOVER ∧
     (perkLoop dt l s).2.1.canResume = false) := by
  induction l with
  | nil =>
    intro s h1
    simpa [perkLoop] using Or.inl h1
  | cons p rest ih =>
    intro s h1
    by_cases pa : p.alive = true
    · by_cases hy : (vadd p.pos (vscale p.vel dt)).y < -30
      · simpa [perkLoop, pa, hy] using ih s h1
      · by_cases ho : |(vadd p.pos (vscale p.vel dt)).x - s.paddle.pos.x| ≤
            s.paddle.w/2 + p.size/2 ∧
            |(vadd p.pos (vscale p.vel dt)).y - s.paddle.pos.y| ≤
            s.paddle.h/2 + p.size/2
        · rcases applyPerk_lives01 p.type s h1 with hap | hap
          · have hl : ¬ (applyPerk p.type s).lives ≤ 0 := by omega
            simpa [perkLoop, pa, hy, ho, hl] using ih (applyPerk p.type s) hap
          · have hl : (applyPerk p.type s).lives ≤ 0 := by omega
            simpa [perkLoop, pa, hy, ho, hl] using Or.inr ⟨hap.1, hap.2.1, hap.2.2⟩
        · simpa [perkLoop, pa, hy, ho] using ih s h1
    · simpa [perkLoop, pa] using ih s h1

lemma perkLoop_fb (dt : ℚ) (l : List Perk) : ∀ s : GS, FbInv s →
    FbInv (perkLoop dt l s).2.1 := by
  induction l with
  | nil =>
    intro s h
    simpa [perkLoop] using h
  | cons p rest ih =>
    intro s h
    by_cases pa : p.alive = true
    · by_cases hy : (vadd p.pos (vscale p.vel dt)).y < -30
      · simpa [perkLoop, pa, hy] using ih s h
      · by_cases ho : |(vadd p.pos (vscale p.vel dt)).x - s.paddle.pos.x| ≤
            s.paddle.w/2 + p.size/2 ∧
            |(vadd p.pos (vscale p.vel dt)).y - s.paddle.pos.y| ≤
            s.paddle.h/2 + p.size/2
        · have hap := applyPerk_fb p.type s h
          by_cases hl : (applyPerk p.type s).lives ≤ 0
          · simpa [perkLoop, pa, hy, ho, hl, FbInv] using hap
          · simpa [perkLoop, pa, hy, ho, hl, FbInv] using ih (applyPerk p.type s) hap
        · simpa [perkLoop, pa, hy, ho] using ih s h
    · simpa [perkLoop, pa] using ih s h

lemma aabbQ_hit (sq : ℚ → ℚ) (br : Brick) (b : Ball) :
    (ballHits b br → ∃ np, aabbCircleCollisionQ sq br.x br.y br.w br.h b.pos b.radius =
      some np) ∧
    (¬ ballHits b br → aabbCircleCollisionQ sq br.x br.y br.w br.h b.pos b.radius =
      none) := by
  unfold ballHits aabbCircleCollisionQ
  constructor
  · intro h
    rw [if_neg (not_lt.mpr h)]
    exact ⟨_, rfl⟩
  · intro h
    rw [if_pos (lt_of_not_le h)]

lemma bulletScan_skip (bu : Bullet) (pre : List Brick) : ∀ (post : List Brick) (s : GS),
    (∀ b ∈ pre, ¬ (b.alive = true ∧ bulletOverlap bu b)) →
    bulletScan bu (pre ++ post) s =
      (pre ++ (bulletScan bu post s).1, (bulletScan bu post s).2.1,
       (bulletScan bu post s).2.2) := by
  induction pre with
  | nil =>
    intro post s hpre
    simp
  | cons b pre' ih =>
    intro post s hpre
    have hpre' : ∀ x ∈ pre', ¬ (x.alive = true ∧ bulletOverlap bu x) :=
      fun x hx => hpre x (List.mem_cons_of_mem b hx)
    have hrec := ih post s hpre'
    by_cases hba : b.alive = true
    · have hov : ¬ (|bu.pos.x - b.x| ≤ b.w/2 ∧ |bu.pos.y - b.y| ≤ b.h/2) :=
        fun hc => hpre b (List.mem_cons_self b pre') ⟨hba, hc⟩
      simp [bulletScan, hba, hov, hrec]
    · simp [bulletScan, hba, hrec]

/-- C8: a bullet damages exactly the first living brick it overlaps — that
brick's hp drops by 1 (dying and rolling a perk spawn when it reaches 0),
its score is added, the bullet dies, and the bricks before and after the hit
are returned untouched (the scan stops) — while the ball's brick pass, here
in through/fireball mode where the ball is not deflected, damages every
living brick the circle test hits, with no early exit. -/
theorem c8_bullet_first_hit :
    (∀ (bu : Bullet) (pre : List Brick) (br : Brick) (post : List Brick) (s : GS),
      (∀ b ∈ pre, ¬ (b.alive = true ∧ bulletOverlap bu b)) →
      br.alive = true → bulletOverlap bu br →
      bulletScan bu (pre ++ br :: post) s =
        (pre ++ damageBrick br :: post, {bu with alive := false},
         if 0 < br.hp ∧ br.hp - 1 ≤ 0 then
           maybeSpawnPerk (damageBrick br) {s with score := s.score + br.score}
         else {s with score := s.score + br.score})) ∧
    (∀ (sq : ℚ → ℚ) (l : List Brick) (s : GS),
      s.ball.through = true ∨ s.ball.fireball = true →
      (ballBrickLoop sq l s).1 =
        l.map (fun br => if br.alive = true ∧ ballHits s.ball br then damageBrick br
          else br) ∧
      (ballBrickLoop sq l s).2.ball = s.ball) := by
  constructor
  · intro bu pre br post s hpre ha ho
    have hstep : bulletScan bu (br :: post) s =
        (damageBrick br :: post, {bu with alive := false},
         if 0 < br.hp ∧ br.hp - 1 ≤ 0 then
           maybeSpawnPerk (damageBrick br) {s with score := s.score + br.score}
         else {s with score := s.score + br.score}) := by
      have ho' : |bu.pos.x - br.x| ≤ br.w/2 ∧ |bu.pos.y - br.y| ≤ br.h/2 := ho
      simp only [bulletScan, if_pos ha, if_pos ho']
    rw [bulletScan_skip bu pre (br :: post) s hpre, hstep]
  · intro sq l
    induction l with
    | nil =>
      intro s hth
      exact ⟨rfl, rfl⟩
    | cons br rest ih =>
      intro s hth
      by_cases ha : br.alive = true
      · by_cases hh : ballHits s.ball br
        · obtain ⟨np, hcol⟩ := (aabbQ_hit sq br s.ball).1 hh
          obtain ⟨bn, bpen⟩ := np
          by_cases hd : 0 < br.hp ∧ br.hp ≤ 1
          · obtain ⟨pk1, rg1, hm⟩ := maybeSpawnPerk_shape (damageBrick br)
              {s with score := s.score + br.score}
            have hrec := ih {s with
              score := s.score + br.score, perks := pk1, rng := rg1} hth
            refine ⟨?_, ?_⟩ <;>
              simp [ballBrickLoop, ha, hcol, hd, hm, hth, hh, hrec.1, hrec.2]
          · have hrec := ih {s with score := s.score + br.score} hth
            refine ⟨?_, ?_⟩ <;>
              simp [ballBrickLoop, ha, hcol, hd, hth, hh, hrec.1, hrec.2]
        · have hcol := (aabbQ_hit sq br s.ball).2 hh
          have hrec := ih s hth
          refine ⟨?_, ?_⟩ <;> simp [ballBrickLoop, ha, hcol, hh, hrec.1, hrec.2]
      · have hrec := ih s hth
        refine ⟨?_, ?_⟩ <;> simp [ballBrickLoop, ha, hrec.1, hrec.2]

/-- C8 witness: a bullet over two overlapping living bricks kills only the
first (hp 1 → dead), leaves the second untouched, and dies; the spawn roll
draws from the empty modelled stream (no spawn). -/
theorem c8_witness :
    ((∀ b ∈ ([] : List Brick), ¬ (b.alive = true ∧ bulletOverlap
        ⟨⟨450, 420⟩, ⟨0, 640⟩, 4, 10, true⟩ b)) ∧
      (⟨450, 420, 60, 22, true, 1, 1, 1, 1, 70⟩ : Brick).alive = true ∧
      bulletOverlap ⟨⟨450, 420⟩, ⟨0, 640⟩, 4, 10, true⟩
        ⟨450, 420, 60, 22, true, 1, 1, 1, 1, 70⟩) ∧
    bulletScan ⟨⟨450, 420⟩, ⟨0, 640⟩, 4, 10, true⟩
      ([] ++ (⟨450, 420, 60, 22, true, 1, 1, 1, 1, 70⟩ : Brick) ::
        [⟨450, 420, 60, 22, true, 2, 1, 1, 1, 70⟩]) cexSpeed =
      ([] ++ damageBrick ⟨450, 420, 60, 22, true, 1, 1, 1, 1, 70⟩ ::
        [⟨450, 420, 60, 22, true, 2, 1, 1, 1, 70⟩],
       {(⟨⟨450, 420⟩, ⟨0, 640⟩, 4, 10, true⟩ : Bullet) with alive := false},
       if 0 < (⟨450, 420, 60, 22, true, 1, 1, 1, 1, 70⟩ : Brick).hp ∧
           (⟨450, 420, 60, 22, true, 1, 1, 1, 1, 70⟩ : Brick).hp - 1 ≤ 0 then
         maybeSpawnPerk (damageBrick ⟨450, 420, 60, 22, true, 1, 1, 1, 1, 70⟩)
           {cexSpeed with score := cexSpeed.score +
             (⟨450, 420, 60, 22, true, 1, 1, 1, 1, 70⟩ : Brick).score}
       else {cexSpeed with score := cexSpeed.score +
         (⟨450, 420, 60, 22, true, 1, 1, 1, 1, 70⟩ : Brick).score}) :=
  ⟨⟨by simp, rfl, by norm_num [bulletOverlap]⟩,
   c8_bullet_first_hit.1 ⟨⟨450, 420⟩, ⟨0, 640⟩, 4, 10, true⟩ []
     ⟨450, 420, 60, 22, true, 1, 1, 1, 1, 70⟩
     [⟨450, 420, 60, 22, true, 2, 1, 1, 1, 70⟩] cexSpeed
     (by simp) rfl (by norm_num [bulletOverlap])⟩

/-- C10: a non-terminal life loss (lives > 1) only recenters and resets the
paddle (width 120, width and shooting effects cleared) and re-sticks the
ball on the paddle at speed 320 plus the accumulated gain; bricks, perks,
bullets, score and the accumulated global speed gain are untouched. -/
theorem c10_loselife_frame (s : GS) (h : 2 ≤ s.lives) :
    loseLife s =
      {s with
        lives := s.lives - 1,
        paddle := {s.paddle with
          pos := ⟨s.scrW/2, s.paddle.pos.y⟩, w := 120,
          widthTimer := 0, shooting := false, shootingTimer := 0},
        hasLaunched := false,
        ball := {s.ball with
          stuck := true, through := false, throughTimer := 0,
          fireball := false, fireballTimer := 0,
          speed := 320 + s.globalSpeedGain,
          pos := ⟨s.scrW/2, s.paddle.pos.y + s.paddle.h/2 + s.ball.radius + 1⟩,
          vel := ⟨0, 1⟩}} := by
  have h0 : (0:ℤ) < s.lives := by omega
  have h1 : ¬ (s.lives - 1 ≤ 0) := by omega
  simp only [loseLife, resetBallOnPaddle, if_pos h0, h1, if_false, if_neg h1]

/-- C10 witness: the non-terminal life loss evaluated on a concrete state
with 3 lives. -/
theorem c10_witness :
    2 ≤ cexWide.lives ∧
    loseLife cexWide =
      {cexWide with
        lives := cexWide.lives - 1,
        paddle := {cexWide.paddle with
          pos := ⟨cexWide.scrW/2, cexWide.paddle.pos.y⟩,
          w := 120, widthTimer := 0, shooting := false, shootingTimer := 0},
        hasLaunched := false,
        ball := {cexWide.ball with
          stuck := true, through := false, throughTimer := 0,
          fireball := false, fireballTimer := 0,
          speed := 320 + cexWide.globalSpeedGain,
          pos := ⟨cexWide.scrW/2,
                  cexWide.paddle.pos.y + cexWide.paddle.h/2 + cexWide.ball.radius + 1⟩,
          vel := ⟨0, 1⟩}} :=
  ⟨by decide, c10_loselife_frame cexWide (by decide)⟩

lemma perkLoop_flag (dt : ℚ) (l : List Perk) : ∀ s : GS, 1 ≤ s.lives →
    (perkLoop dt l s).2.2 = false → 1 ≤ (perkLoop dt l s).2.1.lives := by
  induction l with
  | nil =>
    intro s h1 _
    simpa [perkLoop] using h1
  | cons p rest ih =>
    intro s h1 hfl
    by_cases pa : p.alive = true
    · by_cases hy : (vadd p.pos (vscale p.vel dt)).y < -30
      · simp only [perkLoop, pa, if_true] at hfl ⊢
        rw [if_pos hy] at hfl ⊢
        exact ih s h1 hfl
      · by_cases ho : |(vadd p.pos (vscale p.vel dt)).x - s.paddle.pos.x| ≤
            s.paddle.w/2 + p.size/2 ∧
            |(vadd p.pos (vscale p.vel dt)).y - s.paddle.pos.y| ≤
            s.paddle.h/2 + p.size/2
        · by_cases hl : (applyPerk p.type s).lives ≤ 0
          · simp [perkLoop, pa, hy, ho, hl] at hfl
          · simp only [perkLoop, pa, if_true] at hfl ⊢
            rw [if_neg hy, if_pos ho, if_neg hl] at hfl ⊢
            exact ih (applyPerk p.type s) (by omega) hfl
        · simp only [perkLoop, pa, if_true] at hfl ⊢
          rw [if_neg hy, if_neg ho] at hfl ⊢
          exact ih s h1 hfl
    · simp [perkLoop, pa] at hfl ⊢
      exact ih s h1 hfl

lemma updateGame_early (sq : ℚ → ℚ) (dt : ℚ) (s : GS)
    (h : (stepBall sq dt (stepPaddleMove dt (stepTimers dt s))).1 = true) :
    updateGame sq dt s = (stepBall sq dt (stepPaddleMove dt (stepTimers dt s))).2 := by
  simp [updateGame, h]

lemma updateGame_perkEarly (sq : ℚ → ℚ) (dt : ℚ) (s : GS)
    (h1 : (stepBall sq dt (stepPaddleMove dt (stepTimers dt s))).1 = false)
    (h2 : (perkLoop dt (stepBall sq dt (stepPaddleMove dt (stepTimers dt s))).2.perks
            (stepBall sq dt (stepPaddleMove dt (stepTimers dt s))).2).2.2 = true) :
    updateGame sq dt s =
      {(perkLoop dt (stepBall sq dt (stepPaddleMove dt (stepTimers dt s))).2.perks
          (stepBall sq dt (stepPaddleMove dt (stepTimers dt s))).2).2.1 with
        perks := (perkLoop dt
          (stepBall sq dt (stepPaddleMove dt (stepTimers dt s))).2.perks
          (stepBall sq dt (stepPaddleMove dt (stepTimers dt s))).2).1} := by
  simp [updateGame, h1, h2]

lemma updateGame_full (sq : ℚ → ℚ) (dt : ℚ) (s : GS)
    (h1 : (stepBall sq dt (stepPaddleMove dt (stepTimers dt s))).1 = false)
    (h2 : (perkLoop dt (stepBall sq dt (stepPaddleMove dt (stepTimers dt s))).2.perks
            (stepBall sq dt (stepPaddleMove dt (stepTimers dt s))).2).2.2 = false) :
    updateGame sq dt s =
      winCheck
        {(bulletLoop dt
            (perkLoop dt (stepBall sq dt (stepPaddleMove dt (stepTimers dt s))).2.perks
              (stepBall sq dt (stepPaddleMove dt (stepTimers dt s))).2).2.1.bullets
            {(perkLoop dt
                (stepBall sq dt (stepPaddleMove dt (stepTimers dt s))).2.perks
                (stepBall sq dt (stepPaddleMove dt (stepTimers dt s))).2).2.1 with
              perks := (perkLoop dt
                (stepBall sq dt (stepPaddleMove dt (stepTimers dt s))).2.perks
                (stepBall sq dt (stepPaddleMove dt (stepTimers dt s))).2).1}).2 with
          bullets := (bulletLoop dt
            (perkLoop dt (stepBall sq dt (stepPaddleMove dt (stepTimers dt s))).2.perks
              (stepBall sq dt (stepPaddleMove dt (stepTimers dt s))).2).2.1.bullets
            {(perkLoop dt
                (stepBall sq dt (stepPaddleMove dt (stepTimers dt s))).2.perks
                (stepBall sq dt (stepPaddleMove dt (stepTimers dt s))).2).2.1 with
              perks := (perkLoop dt
                (stepBall sq dt (stepPaddleMove dt (stepTimers dt s))).2.perks
                (stepBall sq dt (stepPaddleMove dt (stepTimers dt s))).2).1}).1} := by
  simp [updateGame, h1, h2]

lemma stepBall_cases (sq : ℚ → ℚ) (dt : ℚ) (s : GS) :
    ((stepBall sq dt s).1 = false ∧ (stepBall sq dt s).2.lives = s.lives ∧
     (stepBall sq dt s).2.current = s.current) ∨
    ((stepBall sq dt s).1 = true ∧ 2 ≤ s.lives ∧
     (stepBall sq dt s).2.lives = s.lives - 1) ∨
    ((stepBall sq dt s).1 = true ∧ (stepBall sq dt s).2.lives = 0 ∧
     (stepBall sq dt s).2.current = Screen.GAMEOVER ∧
     (stepBall sq dt s).2.canResume = false) := by
  by_cases hst : s.ball.stuck = true
  · exact Or.inl (by simp [stepBall, hst])
  · by_cases hf : (wallBounce s.scrW s.scrH (moveBall dt s.ball)).pos.y -
        (wallBounce s.scrW s.scrH (moveBall dt s.ball)).radius < 0
    · by_cases hl : s.lives ≤ 1
      · have hterm := loseLife_terminal
          {s with ball := wallBounce s.scrW s.scrH (moveBall dt s.ball)} (by exact hl)
        refine Or.inr (Or.inr ?_)
        refine ⟨?_, ?_, ?_, ?_⟩ <;> simp [stepBall, hst, hf, hterm]
      · have hres := loseLife_reset
          {s with ball := wallBounce s.scrW s.scrH (moveBall dt s.ball)}
          (by exact (by omega : (2:ℤ) ≤ s.lives))
        refine Or.inr (Or.inl ?_)
        refine ⟨?_, by omega, ?_⟩ <;> simp [stepBall, hst, hf, hres]
    · refine Or.inl ?_
      have hbb := ballBrickLoop_proj sq s.bricks
        (paddleBounce sq {s with ball := wallBounce s.scrW s.scrH (moveBall dt s.ball)})
      have hpb := paddleBounce_frame sq
        {s with ball := wallBounce s.scrW s.scrH (moveBall dt s.ball)}
      refine ⟨?_, ?_, ?_⟩ <;> simp [stepBall, hst, hf, hbb, hpb]

lemma updateGame_lives (sq : ℚ → ℚ) (dt : ℚ) (s : GS) (hl1 : 1 ≤ s.lives)
    (hl5 : s.lives ≤ 5) :
    (1 ≤ (updateGame sq dt s).lives ∨
      ((updateGame sq dt s).lives = 0 ∧
       (updateGame sq dt s).current = Screen.GAMEOVER ∧
       (updateGame sq dt s).canResume = false)) ∧
    0 ≤ (updateGame sq dt s).lives ∧ (updateGame sq dt s).lives ≤ 5 := by
  have hlq : (stepPaddleMove dt (stepTimers dt s)).lives = s.lives := by
    rw [(stepPaddleMove_frame dt (stepTimers dt s)).2.2.2.2.2.1,
        (stepTimers_frame dt s).2.2.2.2.1]
  rcases stepBall_cases sq dt (stepPaddleMove dt (stepTimers dt s)) with
    ⟨hflag, hlv, _⟩ | ⟨hflag, h2, hlv⟩ | ⟨hflag, hlv, hcur, hcr⟩
  · rw [hlq] at hlv
    have hb0 : 0 ≤ (stepBall sq dt (stepPaddleMove dt (stepTimers dt s))).2.lives := by
      rw [hlv]; omega
    have hb5 : (stepBall sq dt (stepPaddleMove dt (stepTimers dt s))).2.lives ≤ 5 := by
      rw [hlv]; omega
    have hb1 : 1 ≤ (stepBall sq dt (stepPaddleMove dt (stepTimers dt s))).2.lives := by
      rw [hlv]; omega
    have hbounds := perkLoop_lives dt
      (stepBall sq dt (stepPaddleMove dt (stepTimers dt s))).2.perks
      (stepBall sq dt (stepPaddleMove dt (stepTimers dt s))).2 hb0 hb5
    by_cases hpf : (perkLoop dt
        (stepBall sq dt (stepPaddleMove dt (stepTimers dt s))).2.perks
        (stepBall sq dt (stepPaddleMove dt (stepTimers dt s))).2).2.2 = true
    · rw [updateGame_perkEarly sq dt s hflag hpf]
      have h01 := perkLoop_lives01 dt
        (stepBall sq dt (stepPaddleMove dt (stepTimers dt s))).2.perks
        (stepBall sq dt (stepPaddleMove dt (stepTimers dt s))).2 hb1
      exact ⟨h01, hbounds.1, hbounds.2⟩
    · have hpf' : (perkLoop dt
          (stepBall sq dt (stepPaddleMove dt (stepTimers dt s))).2.perks
          (stepBall sq dt (stepPaddleMove dt (stepTimers dt s))).2).2.2 = false := by
        simpa using hpf
      have hfl := perkLoop_flag dt
        (stepBall sq dt (stepPaddleMove dt (stepTimers dt s))).2.perks
        (stepBall sq dt (stepPaddleMove dt (stepTimers dt s))).2 hb1 hpf'
      have hLeq : (updateGame sq dt s).lives =
          (perkLoop dt (stepBall sq dt (stepPaddleMove dt (stepTimers dt s))).2.perks
            (stepBall sq dt (stepPaddleMove dt (stepTimers dt s))).2).2.1.lives := by
        rw [updateGame_full sq dt s hflag hpf']
        rw [(winCheck_frame _).2.2.1]
        exact (bulletLoop_proj dt _ _).2.2.1
      rw [hLeq]
      exact ⟨Or.inl hfl, hbounds.1, hbounds.2⟩
  · rw [updateGame_early sq dt s hflag]
    rw [hlq] at h2 hlv
    exact ⟨Or.inl (by rw [hlv]; omega), by rw [hlv]; omega, by rw [hlv]; omega⟩
  · rw [updateGame_early sq dt s hflag]
    exact ⟨Or.inr ⟨hlv, hcur, hcr⟩, by rw [hlv], by rw [hlv]; omega⟩

lemma stepBall_fb (sq : ℚ → ℚ) (dt : ℚ) (s : GS) (h : FbInv s) :
    FbInv (stepBall sq dt s).2 := by
  unfold FbInv at h ⊢
  by_cases hst : s.ball.stuck = true
  · refine FbInvB_of_eq h ?_ ?_ ?_ ?_ <;> simp [stepBall, hst]
  · by_cases hf : (wallBounce s.scrW s.scrH (moveBall dt s.ball)).pos.y -
        (wallBounce s.scrW s.scrH (moveBall dt s.ball)).radius < 0
    · by_cases hl : s.lives ≤ 1
      · have hterm := loseLife_terminal
          {s with ball := wallBounce s.scrW s.scrH (moveBall dt s.ball)} (by exact hl)
        have hw := wallBounce_frame s.scrW s.scrH (moveBall dt s.ball)
        have hm := moveBall_frame dt s.ball
        refine FbInvB_of_eq h ?_ ?_ ?_ ?_ <;>
          simp [stepBall, hst, hf, hterm, hw.2.2.2.1, hw.2.2.2.2.1, hw.2.2.2.2.2.1,
            hw.2.2.2.2.2.2.1, hm.2.2.2.2.1, hm.2.2.2.2.2.1, hm.2.2.2.2.2.2.1,
            hm.2.2.2.2.2.2.2.1]
      · have hres := loseLife_reset
          {s with ball := wallBounce s.scrW s.scrH (moveBall dt s.ball)}
          (by exact (by omega : (2:ℤ) ≤ s.lives))
        unfold FbInvB
        intro hfb
        simp [stepBall, hst, hf, hres] at hfb
    · have hbb := ballBrickLoop_proj sq s.bricks
        (paddleBounce sq {s with ball := wallBounce s.scrW s.scrH (moveBall dt s.ball)})
      have hpb := paddleBounce_frame sq
        {s with ball := wallBounce s.scrW s.scrH (moveBall dt s.ball)}
      have hw := wallBounce_frame s.scrW s.scrH (moveBall dt s.ball)
      have hm := moveBall_frame dt s.ball
      refine FbInvB_of_eq h ?_ ?_ ?_ ?_ <;>
        simp [stepBall, hst, hf, hbb, hpb, hw.2.2.2.1, hw.2.2.2.2.1, hw.2.2.2.2.2.1,
          hw.2.2.2.2.2.2.1, hm.2.2.2.2.1, hm.2.2.2.2.2.1, hm.2.2.2.2.2.2.1,
          hm.2.2.2.2.2.2.2.1]

lemma updateGame_fb (sq : ℚ → ℚ) (dt : ℚ) (s : GS) (hdt : 0 ≤ dt) (h : FbInv s) :
    FbInv (updateGame sq dt s) := by
  have h0 : FbInvB {s.ball with speed := s.ball.speed + dt*4} :=
    FbInvB_of_eq h rfl rfl rfl rfl
  have h1 : FbInv (stepPaddleMove dt (stepTimers dt s)) := by
    unfold FbInv
    rw [(stepPaddleMove_frame dt (stepTimers dt s)).1]
    exact updBallTimers_fb dt _ hdt h0
  have h3 : FbInv (stepBall sq dt (stepPaddleMove dt (stepTimers dt s))).2 :=
    stepBall_fb sq dt _ h1
  by_cases hfl : (stepBall sq dt (stepPaddleMove dt (stepTimers dt s))).1 = true
  · rw [updateGame_early sq dt s hfl]
    exact h3
  · have hfl' : (stepBall sq dt (stepPaddleMove dt (stepTimers dt s))).1 = false := by
      simpa using hfl
    have h4 := perkLoop_fb dt
      (stepBall sq dt (stepPaddleMove dt (stepTimers dt s))).2.perks
      (stepBall sq dt (stepPaddleMove dt (stepTimers dt s))).2 h3
    by_cases hpf : (perkLoop dt
        (stepBall sq dt (stepPaddleMove dt (stepTimers dt s))).2.perks
        (stepBall sq dt (stepPaddleMove dt (stepTimers dt s))).2).2.2 = true
    · rw [updateGame_perkEarly sq dt s hfl' hpf]
      exact h4
    · have hbeq : (updateGame sq dt s).ball =
          (perkLoop dt (stepBall sq dt (stepPaddleMove dt (stepTimers dt s))).2.perks
            (stepBall sq dt (stepPaddleMove dt (stepTimers dt s))).2).2.1.ball := by
        rw [updateGame_full sq dt s hfl' (by simpa using hpf)]
        rw [(winCheck_frame _).1]
        exact (bulletLoop_proj dt _ _).1
      unfold FbInv at h4 ⊢
      rw [hbeq]
      exact h4

lemma newGame_L (s : GS) : LInv (newGame s) := by
  unfold LInv
  refine ⟨⟨?_, ?_⟩, fun _ => ?_⟩ <;> norm_num [newGame, resetBallOnPaddle]

lemma exitToMenu_L (s : GS) : LInv (exitToMenu s) := by
  unfold LInv
  refine ⟨⟨?_, ?_⟩, fun _ => ?_⟩ <;> norm_num [exitToMenu, resetBallOnPaddle]

lemma newGame_fb (s : GS) : FbInv (newGame s) := by
  unfold FbInv FbInvB
  intro hf
  simp [newGame, resetBallOnPaddle] at hf

lemma exitToMenu_fb (s : GS) : FbInv (exitToMenu s) := by
  unfold FbInv FbInvB
  intro hf
  simp [exitToMenu, resetBallOnPaddle] at hf

lemma menuConfirm_L (s : GS) (h : LInv s) : LInv (menuConfirm s) := by
  obtain ⟨⟨h0, h5⟩, himp⟩ := h
  simp only [menuConfirm]
  split_ifs with hr hcr hm0 hm1 hm2 hm3 hn0 hn1 hn2
  all_goals first
    | exact newGame_L s
    | exact ⟨⟨h0, h5⟩, himp⟩
    | (refine ⟨⟨h0, h5⟩, fun ha => himp ?_⟩
       first
         | exact Or.inr (Or.inr (by assumption))
         | (rcases ha with ha | ha | ha
            · exact absurd ha (by simp)
            · exact absurd ha (by simp)
            · exact Or.inr (Or.inr ha)))

lemma pauseConfirm_L (s : GS) (h : LInv s) (hc : s.current = Screen.PAUSE) :
    LInv (pauseConfirm s) := by
  obtain ⟨⟨h0, h5⟩, himp⟩ := h
  have h1 : 1 ≤ s.lives := himp (Or.inr (Or.inl hc))
  unfold pauseConfirm
  split_ifs with hp0 hp1
  · exact ⟨⟨h0, h5⟩, fun _ => h1⟩
  · exact exitToMenu_L s
  · exact ⟨⟨h0, h5⟩, himp⟩

lemma menuConfirm_fb (s : GS) (h : FbInv s) : FbInv (menuConfirm s) := by
  unfold FbInv at h ⊢
  simp only [menuConfirm]
  split_ifs
  all_goals first
    | exact newGame_fb s
    | exact h

lemma pauseConfirm_fb (s : GS) (h : FbInv s) : FbInv (pauseConfirm s) := by
  unfold FbInv at h ⊢
  unfold pauseConfirm
  split_ifs
  all_goals first
    | exact exitToMenu_fb s
    | exact h

lemma stepEv_L (sq : ℚ → ℚ) (e : Ev) (s : GS) (h : LInv s) : LInv (stepEv sq e s) := by
  obtain ⟨⟨h0, h5⟩, himp⟩ := h
  cases e
  case idle dt =>
    simp only [stepEv, onIdle]
    by_cases hc : s.current = Screen.PLAY
    · rw [if_pos hc]
      have hU := updateGame_lives sq
        (if 3/100 < (if dt < 0 then 0 else dt) then 3/100 else (if dt < 0 then 0 else dt))
        s (himp (Or.inl hc)) h5
      refine ⟨⟨hU.2.1, hU.2.2⟩, fun ha => ?_⟩
      rcases hU.1 with h1 | ⟨hz, hgo, hcr⟩
      · exact h1
      · rcases ha with ha | ha | ha
        · rw [hgo] at ha
          exact absurd ha (by simp)
        · rw [hgo] at ha
          exact absurd ha (by simp)
        · rw [hcr] at ha
          exact absurd ha (by simp)
    · rw [if_neg hc]
      exact ⟨⟨h0, h5⟩, himp⟩
  case keyEnter =>
    cases hc : s.current
    all_goals simp only [stepEv, onKeyEnter, hc]
    case MENU => exact menuConfirm_L s ⟨⟨h0, h5⟩, himp⟩
    case PLAY => exact ⟨⟨h0, h5⟩, himp⟩
    case PAUSE => exact pauseConfirm_L s ⟨⟨h0, h5⟩, himp⟩ hc
    all_goals
      refine ⟨⟨h0, h5⟩, fun ha => himp ?_⟩
      rcases ha with ha | ha | ha
      · exact absurd ha (by simp)
      · exact absurd ha (by simp)
      · exact Or.inr (Or.inr ha)
  case keyEsc =>
    cases hc : s.current
    all_goals simp only [stepEv, onKeyEsc, hc]
    case MENU => exact ⟨⟨h0, h5⟩, himp⟩
    case PLAY => exact ⟨⟨h0, h5⟩, fun _ => himp (Or.inl hc)⟩
    case PAUSE => exact ⟨⟨h0, h5⟩, fun _ => himp (Or.inr (Or.inl hc))⟩
    case WIN => exact ⟨⟨h0, h5⟩, himp⟩
    case GAMEOVER => exact ⟨⟨h0, h5⟩, himp⟩
    all_goals
      refine ⟨⟨h0, h5⟩, fun ha => himp ?_⟩
      rcases ha with ha | ha | ha
      · exact absurd ha (by simp)
      · exact absurd ha (by simp)
      · exact Or.inr (Or.inr ha)
  case keyP =>
    cases hc : s.current
    all_goals simp only [stepEv, onKeyP, hc]
    case PLAY => exact ⟨⟨h0, h5⟩, fun _ => himp (Or.inl hc)⟩
    case PAUSE => exact ⟨⟨h0, h5⟩, fun _ => himp (Or.inr (Or.inl hc))⟩
    all_goals exact ⟨⟨h0, h5⟩, himp⟩
  case keyR =>
    cases hc : s.current
    all_goals simp only [stepEv, onKeyR, hc]
    case PAUSE => exact ⟨⟨h0, h5⟩, fun _ => himp (Or.inr (Or.inl hc))⟩
    all_goals exact ⟨⟨h0, h5⟩, himp⟩
  case keyE =>
    cases hc : s.current
    all_goals simp only [stepEv, onKeyE, hc]
    case PAUSE => exact exitToMenu_L s
    all_goals exact ⟨⟨h0, h5⟩, himp⟩
  case keySpace =>
    cases hc : s.current
    all_goals simp only [stepEv, onKeySpace, hc]
    case PLAY =>
      unfold launchKey
      split_ifs <;> exact ⟨⟨h0, h5⟩, himp⟩
    all_goals exact ⟨⟨h0, h5⟩, himp⟩
  case keyF =>
    cases hc : s.current
    all_goals simp only [stepEv, onKeyF, hc]
    case PLAY =>
      unfold fireBullet
      split_ifs <;> exact ⟨⟨h0, h5⟩, himp⟩
    all_goals exact ⟨⟨h0, h5⟩, himp⟩
  case spUp =>
    cases hc : s.current
    all_goals simp only [stepEv, onSpUp, hc]
    case MENU =>
      refine ⟨⟨h0, h5⟩, fun ha => ?_⟩
      rcases ha with ha | ha | ha
      · exact absurd ha (by simp)
      · exact absurd ha (by simp)
      · exact himp (Or.inr (Or.inr ha))
    case PAUSE => exact ⟨⟨h0, h5⟩, fun _ => himp (Or.inr (Or.inl hc))⟩
    all_goals exact ⟨⟨h0, h5⟩, himp⟩
  case spDown =>
    cases hc : s.current
    all_goals simp only [stepEv, onSpDown, hc]
    case MENU =>
      refine ⟨⟨h0, h5⟩, fun ha => ?_⟩
      rcases ha with ha | ha | ha
      · exact absurd ha (by simp)
      · exact absurd ha (by simp)
      · exact himp (Or.inr (Or.inr ha))
    case PAUSE => exact ⟨⟨h0, h5⟩, fun _ => himp (Or.inr (Or.inl hc))⟩
    all_goals exact ⟨⟨h0, h5⟩, himp⟩
  case spLeft =>
    cases hc : s.current
    all_goals simp only [stepEv, onSpLeft, hc]
    case PLAY => exact ⟨⟨h0, h5⟩, fun _ => himp (Or.inl hc)⟩
    all_goals exact ⟨⟨h0, h5⟩, himp⟩
  case spRight =>
    cases hc : s.current
    all_goals simp only [stepEv, onSpRight, hc]
    case PLAY => exact ⟨⟨h0, h5⟩, fun _ => himp (Or.inl hc)⟩
    all_goals exact ⟨⟨h0, h5⟩, himp⟩
  case spLeftUp => exact ⟨⟨h0, h5⟩, himp⟩
  case spRightUp => exact ⟨⟨h0, h5⟩, himp⟩
  case clickL =>
    cases hc : s.current
    all_goals simp only [stepEv, onClickL, hc]
    case MENU => exact menuConfirm_L s ⟨⟨h0, h5⟩, himp⟩
    case PAUSE => exact pauseConfirm_L s ⟨⟨h0, h5⟩, himp⟩ hc
    case PLAY =>
      unfold launchMouse
      split_ifs <;> exact ⟨⟨h0, h5⟩, himp⟩
    all_goals exact ⟨⟨h0, h5⟩, himp⟩
  case clickR =>
    cases hc : s.current
    all_goals simp only [stepEv, onClickR, hc]
    case PLAY =>
      unfold fireBullet
      split_ifs <;> exact ⟨⟨h0, h5⟩, himp⟩
    all_goals exact ⟨⟨h0, h5⟩, himp⟩
  case motion x =>
    simp only [stepEv, onMotion]
    split_ifs <;> exact ⟨⟨h0, h5⟩, himp⟩
  case reshape w hh => exact ⟨⟨h0, h5⟩, himp⟩

lemma stepEv_fb (sq : ℚ → ℚ) (e : Ev) (s : GS) (h : FbInv s) : FbInv (stepEv sq e s) := by
  cases e
  case idle dt =>
    simp only [stepEv, onIdle]
    by_cases hc : s.current = Screen.PLAY
    · rw [if_pos hc]
      refine updateGame_fb sq _ s ?_ h
      split_ifs <;> linarith
    · rw [if_neg hc]
      exact h
  case keyEnter =>
    cases hc : s.current
    all_goals simp only [stepEv, onKeyEnter, hc]
    case MENU => exact menuConfirm_fb s h
    case PAUSE => exact pauseConfirm_fb s h
    all_goals exact h
  case keyEsc =>
    cases hc : s.current
    all_goals simp only [stepEv, onKeyEsc, hc]
    all_goals exact h
  case keyP =>
    cases hc : s.current
    all_goals simp only [stepEv, onKeyP, hc]
    all_goals exact h
  case keyR =>
    cases hc : s.current
    all_goals simp only [stepEv, onKeyR, hc]
    all_goals exact h
  case keyE =>
    cases hc : s.current
    all_goals simp only [stepEv, onKeyE, hc]
    case PAUSE => exact exitToMenu_fb s
    all_goals exact h
  case keySpace =>
    cases hc : s.current
    all_goals simp only [stepEv, onKeySpace, hc]
    case PLAY =>
      unfold FbInv at h ⊢
      unfold launchKey
      split_ifs
      · exact FbInvB_of_eq h rfl rfl rfl rfl
      · exact h
    all_goals exact h
  case keyF =>
    cases hc : s.current
    all_goals simp only [stepEv, onKeyF, hc]
    case PLAY =>
      unfold FbInv at h ⊢
      unfold fireBullet
      split_ifs <;> exact h
    all_goals exact h
  case spUp =>
    cases hc : s.current
    all_goals simp only [stepEv, onSpUp, hc]
    all_goals exact h
  case spDown =>
    cases hc : s.current
    all_goals simp only [stepEv, onSpDown, hc]
    all_goals exact h
  case spLeft =>
    cases hc : s.current
    all_goals simp only [stepEv, onSpLeft, hc]
    all_goals exact h
  case spRight =>
    cases hc : s.current
    all_goals simp only [stepEv, onSpRight, hc]
    all_goals exact h
  case spLeftUp => exact h
  case spRightUp => exact h
  case clickL =>
    cases hc : s.current
    all_goals simp only [stepEv, onClickL, hc]
    case MENU => exact menuConfirm_fb s h
    case PAUSE => exact pauseConfirm_fb s h
    case PLAY =>
      unfold FbInv at h ⊢
      unfold launchMouse
      split_ifs
      · exact FbInvB_of_eq h rfl rfl rfl rfl
      · exact h
    all_goals exact h
  case clickR =>
    cases hc : s.current
    all_goals simp only [stepEv, onClickR, hc]
    case PLAY =>
      unfold FbInv at h ⊢
      unfold fireBullet
      split_ifs <;> exact h
    all_goals exact h
  case motion x =>
    simp only [stepEv, onMotion]
    split_ifs <;> exact h
  case reshape w hh => exact h

lemma initState_L (rng0 : List ℚ) : LInv (initState rng0) := by
  unfold LInv
  refine ⟨⟨?_, ?_⟩, fun _ => ?_⟩ <;> norm_num [initState, resetBallOnPaddle]

lemma initState_fb (rng0 : List ℚ) : FbInv (initState rng0) := by
  unfold FbInv FbInvB
  intro hf
  simp [initState, resetBallOnPaddle] at hf

lemma reachable_L (sq : ℚ → ℚ) (s : GS) (h : Reachable sq s) : LInv s := by
  induction h with
  | init rng0 => exact initState_L rng0
  | step e s2 hr ih => exact stepEv_L sq e s2 ih

lemma reachable_fb (sq : ℚ → ℚ) (s : GS) (h : Reachable sq s) : FbInv s := by
  induction h with
  | init rng0 => exact initState_fb rng0
  | step e s2 hr ih => exact stepEv_fb sq e s2 ih

lemma loseLife_lives (s : GS) : 0 ≤ (loseLife s).lives := by
  simp only [loseLife, saveHighScore, resetBallOnPaddle]
  split_ifs <;> simp <;> omega

/-- C3: in every reachable program state, `lives` lies inside [0, MAX_LIVES];
an EXTRA_LIFE application never pushes `lives` above MAX_LIVES; a life-loss
call never drives `lives` below 0; and from a playing reachable state one
simulation step either keeps at least one life or ends with `lives = 0`
together with the transition to the GAMEOVER screen (reaching 0 is
terminal). -/
theorem c3_lives_bounds (sq : ℚ → ℚ) :
    (∀ s : GS, Reachable sq s → 0 ≤ s.lives ∧ s.lives ≤ MAX_LIVES) ∧
    (∀ s : GS, (applyPerk PerkType.EXTRA_LIFE s).lives ≤ MAX_LIVES) ∧
    (∀ s : GS, 0 ≤ (loseLife s).lives) ∧
    (∀ (dt : ℚ) (s : GS), Reachable sq s → s.current = Screen.PLAY →
       1 ≤ (updateGame sq dt s).lives ∨
       ((updateGame sq dt s).lives = 0 ∧
        (updateGame sq dt s).current = Screen.GAMEOVER)) := by
  refine ⟨?_, ?_, ?_, ?_⟩
  · intro s h
    have hL := reachable_L sq s h
    exact ⟨hL.1.1, by simpa [MAX_LIVES] using hL.1.2⟩
  · intro s
    simp only [applyPerk, MAX_LIVES]
    split_ifs <;> omega
  · exact loseLife_lives
  · intro dt s h hplay
    have hL := reachable_L sq s h
    have hU := updateGame_lives sq dt s (hL.2 (Or.inl hplay)) hL.1.2
    rcases hU.1 with h1 | ⟨hz, hgo, _⟩
    · exact Or.inl h1
    · exact Or.inr ⟨hz, hgo⟩

/-- C3 witness: the initial state is reachable and satisfies the lives
bounds. -/
theorem c3_witness : 0 ≤ (initState []).lives ∧ (initState []).lives ≤ MAX_LIVES :=
  (c3_lives_bounds sqZero).1 (initState []) (Reachable.init [])

/-- C9: in every reachable state the ball's fireball flag implies its
through flag; the FIREBALL perk sets fireball with an 8 s timer, forces
through, and raises the through timer to at least 8 s (never lowering it);
and the per-step timer decay (both timers decreased by the same dt ≥ 0)
preserves the fireball-implies-through invariant, including the relation
fireballTimer ≤ throughTimer that makes it stable. -/
theorem c9_fireball_implies_through (sq : ℚ → ℚ) :
    (∀ s : GS, Reachable sq s → s.ball.fireball = true → s.ball.through = true) ∧
    (∀ s : GS,
       (applyPerk PerkType.FIREBALL s).ball.fireball = true ∧
       (applyPerk PerkType.FIREBALL s).ball.fireballTimer = 8 ∧
       (applyPerk PerkType.FIREBALL s).ball.through = true ∧
       8 ≤ (applyPerk PerkType.FIREBALL s).ball.throughTimer ∧
       s.ball.throughTimer ≤ (applyPerk PerkType.FIREBALL s).ball.throughTimer) ∧
    (∀ (dt : ℚ) (b : Ball), 0 ≤ dt → FbInvB b → FbInvB (updBallTimers dt b)) := by
  refine ⟨?_, ?_, ?_⟩
  · intro s h hf
    exact ((reachable_fb sq s h) hf).1
  · intro s
    refine ⟨rfl, rfl, rfl, ?_, ?_⟩ <;>
      simp only [applyPerk] <;> split_ifs <;> linarith
  · exact fun dt b => updBallTimers_fb dt b

/-- C9 witness: the invariant instantiated at the reachable initial state. -/
theorem c9_witness :
    (initState []).ball.fireball = true → (initState []).ball.through = true :=
  (c9_fireball_implies_through sqZero).1 (initState []) (Reachable.init [])

lemma applyPerk_hist (t : PerkType) (s : GS) :
    ((applyPerk t s).current = s.current ∧ (applyPerk t s).history = s.history ∧
     (applyPerk t s).canResume = s.canResume) ∨
    ((applyPerk t s).lives = 0 ∧ (applyPerk t s).current = Screen.GAMEOVER ∧
     (applyPerk t s).history = s.history ++ [⟨s.playTime, s.score⟩] ∧
     (applyPerk t s).canResume = false) := by
  cases t
  case INSTANT_DEATH => exact Or.inr ⟨rfl, rfl, rfl, rfl⟩
  all_goals exact Or.inl ⟨rfl, rfl, rfl⟩

lemma perkLoop_hist (dt : ℚ) (l : List Perk) : ∀ s : GS,
    ((perkLoop dt l s).2.1.current = s.current ∧
     (perkLoop dt l s).2.1.history = s.history) ∨
    ((perkLoop dt l s).2.1.current = Screen.GAMEOVER ∧
     (perkLoop dt l s).2.1.history = s.history ++ [⟨s.playTime, s.score⟩] ∧
     (perkLoop dt l s).2.1.canResume = false ∧
     (perkLoop dt l s).2.2 = true) := by
  induction l with
  | nil =>
    intro s
    exact Or.inl (by constructor <;> simp [perkLoop])
  | cons p rest ih =>
    intro s
    by_cases pa : p.alive = true
    · by_cases hy : (vadd p.pos (vscale p.vel dt)).y < -30
      · rcases ih s with ⟨hc, hh⟩ | ⟨hc, hh, hcr, hfl⟩
        · exact Or.inl (by constructor <;> simp [perkLoop, pa, hy, hc, hh])
        · refine Or.inr ?_
          refine ⟨?_, ?_, ?_, ?_⟩ <;> simp [perkLoop, pa, hy, hc, hh, hcr, hfl]
      · by_cases ho : |(vadd p.pos (vscale p.vel dt)).x - s.paddle.pos.x| ≤
            s.paddle.w/2 + p.size/2 ∧
            |(vadd p.pos (vscale p.vel dt)).y - s.paddle.pos.y| ≤
            s.paddle.h/2 + p.size/2
        · by_cases hl : (applyPerk p.type s).lives ≤ 0
          · rcases applyPerk_hist p.type s with ⟨hc, hh, _⟩ | ⟨_, hc, hh, hcr⟩
            · exact Or.inl (by constructor <;> simp [perkLoop, pa, hy, ho, hl, hc, hh])
            · refine Or.inr ?_
              refine ⟨?_, ?_, ?_, ?_⟩ <;> simp [perkLoop, pa, hy, ho, hl, hc, hh, hcr]
          · rcases applyPerk_hist p.type s with ⟨hc, hh, _⟩ | ⟨hz, _, _, _⟩
            · have hfr := applyPerk_frame p.type s
              rcases ih (applyPerk p.type s) with ⟨ic, ihh⟩ | ⟨ic, ihh, icr, ifl⟩
              · exact Or.inl (by constructor <;>
                  simp [perkLoop, pa, hy, ho, hl, ic, ihh, hc, hh])
              · refine Or.inr ?_
                refine ⟨?_, ?_, ?_, ?_⟩ <;>
                  simp [perkLoop, pa, hy, ho, hl, ic, ihh, icr, ifl, hc, hh,
                    hfr.2.2.2.1, hfr.2.2.2.2.2.2.1]
            · exact absurd hz (by omega)
        · rcases ih s with ⟨hc, hh⟩ | ⟨hc, hh, hcr, hfl⟩
          · exact Or.inl (by constructor <;> simp [perkLoop, pa, hy, ho, hc, hh])
          · refine Or.inr ?_
            refine ⟨?_, ?_, ?_, ?_⟩ <;> simp [perkLoop, pa, hy, ho, hc, hh, hcr, hfl]
    · rcases ih s with ⟨hc, hh⟩ | ⟨hc, hh, hcr, hfl⟩
      · exact Or.inl (by constructor <;> simp [perkLoop, pa, hc, hh])
      · refine Or.inr ?_
        refine ⟨?_, ?_, ?_, ?_⟩ <;> simp [perkLoop, pa, hc, hh, hcr, hfl]

lemma stepBall_hist (sq : ℚ → ℚ) (dt : ℚ) (s : GS) :
    ((stepBall sq dt s).2.current = s.current ∧
     (stepBall sq dt s).2.history = s.history) ∨
    ((stepBall sq dt s).1 = true ∧
     (stepBall sq dt s).2.current = Screen.GAMEOVER ∧
     (stepBall sq dt s).2.history = s.history ++ [⟨s.playTime, s.score⟩] ∧
     (stepBall sq dt s).2.canResume = false) := by
  by_cases hst : s.ball.stuck = true
  · exact Or.inl (by constructor <;> simp [stepBall, hst])
  · by_cases hf : (wallBounce s.scrW s.scrH (moveBall dt s.ball)).pos.y -
        (wallBounce s.scrW s.scrH (moveBall dt s.ball)).radius < 0
    · by_cases hl : s.lives ≤ 1
      · have hterm := loseLife_terminal
          {s with ball := wallBounce s.scrW s.scrH (moveBall dt s.ball)} (by exact hl)
        refine Or.inr ?_
        refine ⟨?_, ?_, ?_, ?_⟩ <;> simp [stepBall, hst, hf, hterm]
      · have hres := loseLife_reset
          {s with ball := wallBounce s.scrW s.scrH (moveBall dt s.ball)}
          (by exact (by omega : (2:ℤ) ≤ s.lives))
        exact Or.inl (by constructor <;> simp [stepBall, hst, hf, hres])
    · have hbb := ballBrickLoop_proj sq s.bricks
        (paddleBounce sq {s with ball := wallBounce s.scrW s.scrH (moveBall dt s.ball)})
      have hpb := paddleBounce_frame sq
        {s with ball := wallBounce s.scrW s.scrH (moveBall dt s.ball)}
      exact Or.inl (by constructor <;> simp [stepBall, hst, hf, hbb, hpb])

lemma updateGame_hist (sq : ℚ → ℚ) (dt : ℚ) (s : GS) (hc : s.current = Screen.PLAY) :
    ((updateGame sq dt s).current = Screen.PLAY ∧
     (updateGame sq dt s).history = s.history) ∨
    (((updateGame sq dt s).current = Screen.WIN ∨
      (updateGame sq dt s).current = Screen.GAMEOVER) ∧
     (∃ r : Run, (updateGame sq dt s).history = s.history ++ [r]) ∧
     (updateGame sq dt s).canResume = false) := by
  have s1c : (stepPaddleMove dt (stepTimers dt s)).current = s.current := by
    rw [(stepPaddleMove_frame dt (stepTimers dt s)).2.1, (stepTimers_frame dt s).1]
  have s1h : (stepPaddleMove dt (stepTimers dt s)).history = s.history := by
    rw [(stepPaddleMove_frame dt (stepTimers dt s)).2.2.2.2.2.2.2.1,
        (stepTimers_frame dt s).2.2.2.2.2.2.1]
  rcases stepBall_hist sq dt (stepPaddleMove dt (stepTimers dt s)) with
    ⟨hbc, hbh⟩ | ⟨hbf, hbc, hbh, hbcr⟩
  · by_cases hflag : (stepBall sq dt (stepPaddleMove dt (stepTimers dt s))).1 = true
    · rw [updateGame_early sq dt s hflag]
      exact Or.inl ⟨hbc.trans (s1c.trans hc), hbh.trans s1h⟩
    · have hflag' : (stepBall sq dt (stepPaddleMove dt (stepTimers dt s))).1 = false := by
        simpa using hflag
      rcases perkLoop_hist dt
          (stepBall sq dt (stepPaddleMove dt (stepTimers dt s))).2.perks
          (stepBall sq dt (stepPaddleMove dt (stepTimers dt s))).2 with
        ⟨hpc, hph⟩ | ⟨hpc, hph, hpcr, hpfl⟩
      · by_cases hpf : (perkLoop dt
            (stepBall sq dt (stepPaddleMove dt (stepTimers dt s))).2.perks
            (stepBall sq dt (stepPaddleMove dt (stepTimers dt s))).2).2.2 = true
        · rw [updateGame_perkEarly sq dt s hflag' hpf]
          exact Or.inl ⟨hpc.trans (hbc.trans (s1c.trans hc)), hph.trans (hbh.trans s1h)⟩
        · have hpf' : (perkLoop dt
              (stepBall sq dt (stepPaddleMove dt (stepTimers dt s))).2.perks
              (stepBall sq dt (stepPaddleMove dt (stepTimers dt s))).2).2.2 = false := by
            simpa using hpf
          rw [updateGame_full sq dt s hflag' hpf']
          set S2 : GS := {(perkLoop dt
              (stepBall sq dt (stepPaddleMove dt (stepTimers dt s))).2.perks
              (stepBall sq dt (stepPaddleMove dt (stepTimers dt s))).2).2.1 with
            perks := (perkLoop dt
              (stepBall sq dt (stepPaddleMove dt (stepTimers dt s))).2.perks
              (stepBall sq dt (stepPaddleMove dt (stepTimers dt s))).2).1} with hS2
          set X : GS := {(bulletLoop dt S2.bullets S2).2 with
            bullets := (bulletLoop dt S2.bullets S2).1} with hX
          have hblc := bulletLoop_proj dt S2.bullets S2
          have hXc : X.current =
              (perkLoop dt (stepBall sq dt (stepPaddleMove dt (stepTimers dt s))).2.perks
                (stepBall sq dt (stepPaddleMove dt (stepTimers dt s))).2).2.1.current :=
            hblc.2.2.2.1
          have hXh : X.history = s.history :=
            hblc.2.2.2.2.1.trans (hph.trans (hbh.trans s1h))
          rcases winCheck_cases X with ⟨hwa, hwn⟩
          by_cases halive : X.bricks.any (fun b => b.alive) = true
          · rw [hwa halive]
            exact Or.inl ⟨hXc.trans (hpc.trans (hbc.trans (s1c.trans hc))), hXh⟩
          · rw [hwn halive]
            refine Or.inr ⟨Or.inl rfl, ⟨⟨X.playTime, X.score⟩, ?_⟩, rfl⟩
            show X.history ++ [(⟨X.playTime, X.score⟩ : Run)] =
              s.history ++ [(⟨X.playTime, X.score⟩ : Run)]
            rw [hXh]
      · have hpf : (perkLoop dt
            (stepBall sq dt (stepPaddleMove dt (stepTimers dt s))).2.perks
            (stepBall sq dt (stepPaddleMove dt (stepTimers dt s))).2).2.2 = true := hpfl
        rw [updateGame_perkEarly sq dt s hflag' hpf]
        refine Or.inr ⟨Or.inr hpc,
          ⟨⟨(stepBall sq dt (stepPaddleMove dt (stepTimers dt s))).2.playTime,
            (stepBall sq dt (stepPaddleMove dt (stepTimers dt s))).2.score⟩, ?_⟩, hpcr⟩
        show (perkLoop dt (stepBall sq dt (stepPaddleMove dt (stepTimers dt s))).2.perks
          (stepBall sq dt (stepPaddleMove dt (stepTimers dt s))).2).2.1.history = _
        rw [hph, hbh, s1h]
  · have hflag : (stepBall sq dt (stepPaddleMove dt (stepTimers dt s))).1 = true := hbf
    rw [updateGame_early sq dt s hflag]
    refine Or.inr ⟨Or.inr hbc,
      ⟨⟨(stepPaddleMove dt (stepTimers dt s)).playTime,
        (stepPaddleMove dt (stepTimers dt s)).score⟩, ?_⟩, hbcr⟩
    show (stepBall sq dt (stepPaddleMove dt (stepTimers dt s))).2.history = _
    rw [hbh, s1h]

lemma sessInv_of_eq (h0 : ℕ) {s s2 : GS} (hs : sessInv h0 s)
    (hc : s2.current = s.current) (hh : s2.history = s.history)
    (hcr : s2.canResume = s.canResume) : sessInv h0 s2 := by
  unfold sessInv at hs ⊢
  rw [hc, hh, hcr]
  exact hs

lemma sessInv_of_play (h0 : ℕ) (s : GS)
    (hc : s.current = Screen.PLAY ∨ s.current = Screen.PAUSE)
    (hl : s.history.length = h0) : sessInv h0 s := by
  unfold sessInv
  refine ⟨fun _ => hl, fun hw => ?_, fun hm => ?_⟩
  · rcases hc with hc | hc <;> rw [hc] at hw <;> rcases hw with hw | hw <;>
      exact absurd hw (by simp)
  · rcases hc with hc | hc <;> rw [hc] at hm <;> rcases hm with hm | hm | hm <;>
      exact absurd hm (by simp)

lemma sessInv_of_term (h0 : ℕ) (s : GS)
    (hc : s.current = Screen.WIN ∨ s.current = Screen.GAMEOVER)
    (hl : s.history.length = h0 + 1) (hcr : s.canResume = false) : sessInv h0 s := by
  unfold sessInv
  refine ⟨fun hp => ?_, fun _ => ⟨hl, hcr⟩, fun hm => ?_⟩
  · rcases hc with hc | hc <;> rw [hc] at hp <;> rcases hp with hp | hp <;>
      exact absurd hp (by simp)
  · rcases hc with hc | hc <;> rw [hc] at hm <;> rcases hm with hm | hm | hm <;>
      exact absurd hm (by simp)

lemma sessInv_of_menu (h0 : ℕ) (s : GS)
    (hc : s.current = Screen.MENU ∨ s.current = Screen.HELP ∨
          s.current = Screen.HIGHSCORES)
    (hl : s.history.length ≤ h0 + 1) (hcr : s.canResume = false) : sessInv h0 s := by
  unfold sessInv
  refine ⟨fun hp => ?_, fun hw => ?_, fun _ => ⟨hl, hcr⟩⟩
  · rcases hc with hc | hc | hc <;> rw [hc] at hp <;> rcases hp with hp | hp <;>
      exact absurd hp (by simp)
  · rcases hc with hc | hc | hc <;> rw [hc] at hw <;> rcases hw with hw | hw <;>
      exact absurd hw (by simp)

lemma exitToMenu_sess (h0 : ℕ) (s : GS) (hl : s.history.length ≤ h0 + 1) :
    sessInv h0 (exitToMenu s) :=
  sessInv_of_menu h0 (exitToMenu s) (Or.inl rfl) hl rfl

lemma menuConfirm_sess (h0 : ℕ) (s : GS) (hs : sessInv h0 s)
    (hc : s.current = Screen.MENU) (hm : ¬ s.menuIndex = 0) :
    sessInv h0 (menuConfirm s) := by
  have hmenu := hs.2.2 (Or.inl hc)
  simp only [menuConfirm]
  split_ifs with h1 h2 h3 h4 h5 h6 h7 h8
  all_goals first
    | exact hs
    | exact absurd (hmenu.2.symm.trans h1) Bool.false_ne_true
    | exact absurd (by assumption : s.menuIndex = 0) hm
    | exact sessInv_of_menu h0 _ (Or.inr (Or.inr rfl)) hmenu.1 hmenu.2
    | exact sessInv_of_menu h0 _ (Or.inr (Or.inl rfl)) hmenu.1 hmenu.2

lemma pauseConfirm_sess (h0 : ℕ) (s : GS) (hs : sessInv h0 s)
    (hc : s.current = Screen.PAUSE) : sessInv h0 (pauseConfirm s) := by
  have hlen := hs.1 (Or.inr hc)
  simp only [pauseConfirm]
  split_ifs with hp0 hp1
  · exact sessInv_of_play h0 _ (Or.inl rfl) hlen
  · exact exitToMenu_sess h0 s (by omega)
  · exact hs

lemma stepEv_sess (sq : ℚ → ℚ) (e : Ev) (s : GS) (h0 : ℕ) (hs : sessInv h0 s)
    (hng : startsNewGame e s = false) : sessInv h0 (stepEv sq e s) := by
  cases e
  case idle dt =>
    simp only [stepEv, onIdle]
    by_cases hc : s.current = Screen.PLAY
    · rw [if_pos hc]
      have hlen := hs.1 (Or.inl hc)
      rcases updateGame_hist sq
          (if 3/100 < (if dt < 0 then 0 else dt) then 3/100 else (if dt < 0 then 0 else dt))
          s hc with ⟨huc, huh⟩ | ⟨huc, ⟨r, huh⟩, hucr⟩
      · exact sessInv_of_play h0 _ (Or.inl huc) (by rw [huh, hlen])
      · refine sessInv_of_term h0 _ huc ?_ hucr
        rw [huh]
        simp [hlen]
    · rw [if_neg hc]
      exact hs
  case keyEnter =>
    cases hc : s.current
    all_goals simp only [stepEv, onKeyEnter, hc]
    case MENU =>
      have hcr := (hs.2.2 (Or.inl hc)).2
      have hm : ¬ s.menuIndex = 0 := by
        intro hm0
        simp [startsNewGame, hc, hcr, hm0] at hng
      exact menuConfirm_sess h0 s hs hc hm
    case PLAY => exact hs
    case PAUSE => exact pauseConfirm_sess h0 s hs hc
    case HELP =>
      exact sessInv_of_menu h0 _ (Or.inl rfl)
        (hs.2.2 (Or.inr (Or.inl hc))).1 (hs.2.2 (Or.inr (Or.inl hc))).2
    case HIGHSCORES =>
      exact sessInv_of_menu h0 _ (Or.inl rfl)
        (hs.2.2 (Or.inr (Or.inr hc))).1 (hs.2.2 (Or.inr (Or.inr hc))).2
    case WIN =>
      refine sessInv_of_menu h0 _ (Or.inl rfl) ?_ (hs.2.1 (Or.inl hc)).2
      have hl := (hs.2.1 (Or.inl hc)).1
      show s.history.length ≤ h0 + 1
      omega
    case GAMEOVER =>
      refine sessInv_of_menu h0 _ (Or.inl rfl) ?_ (hs.2.1 (Or.inr hc)).2
      have hl := (hs.2.1 (Or.inr hc)).1
      show s.history.length ≤ h0 + 1
      omega
  case keyEsc =>
    cases hc : s.current
    all_goals simp only [stepEv, onKeyEsc, hc]
    case MENU => exact hs
    case HELP =>
      exact sessInv_of_menu h0 _ (Or.inl rfl)
        (hs.2.2 (Or.inr (Or.inl hc))).1 (hs.2.2 (Or.inr (Or.inl hc))).2
    case HIGHSCORES =>
      exact sessInv_of_menu h0 _ (Or.inl rfl)
        (hs.2.2 (Or.inr (Or.inr hc))).1 (hs.2.2 (Or.inr (Or.inr hc))).2
    case WIN => exact hs
    case GAMEOVER => exact hs
    case PLAY => exact sessInv_of_play h0 _ (Or.inr rfl) (hs.1 (Or.inl hc))
    case PAUSE => exact sessInv_of_play h0 _ (Or.inl rfl) (hs.1 (Or.inr hc))
  case keyP =>
    cases hc : s.current
    all_goals simp only [stepEv, onKeyP, hc]
    case PLAY => exact sessInv_of_play h0 _ (Or.inr rfl) (hs.1 (Or.inl hc))
    case PAUSE => exact sessInv_of_play h0 _ (Or.inl rfl) (hs.1 (Or.inr hc))
    all_goals exact hs
  case keyR =>
    cases hc : s.current
    all_goals simp only [stepEv, onKeyR, hc]
    case PAUSE => exact sessInv_of_play h0 _ (Or.inl rfl) (hs.1 (Or.inr hc))
    all_goals exact hs
  case keyE =>
    cases hc : s.current
    all_goals simp only [stepEv, onKeyE, hc]
    case PAUSE =>
      refine exitToMenu_sess h0 s ?_
      have hl := hs.1 (Or.inr hc)
      omega
    all_goals exact hs
  case keySpace =>
    cases hc : s.current
    all_goals simp only [stepEv, onKeySpace, hc]
    case PLAY =>
      unfold launchKey
      split_ifs
      · exact sessInv_of_eq h0 hs rfl rfl rfl
      · exact hs
    all_goals exact hs
  case keyF =>
    cases hc : s.current
    all_goals simp only [stepEv, onKeyF, hc]
    case PLAY =>
      unfold fireBullet
      split_ifs
      · exact sessInv_of_eq h0 hs rfl rfl rfl
      · exact hs
    all_goals exact hs
  case spUp =>
    cases hc : s.current
    all_goals simp only [stepEv, onSpUp, hc]
    case MENU => exact sessInv_of_eq h0 hs hc.symm rfl rfl
    case PAUSE => exact sessInv_of_eq h0 hs hc.symm rfl rfl
    all_goals exact hs
  case spDown =>
    cases hc : s.current
    all_goals simp only [stepEv, onSpDown, hc]
    case MENU => exact sessInv_of_eq h0 hs hc.symm rfl rfl
    case PAUSE => exact sessInv_of_eq h0 hs hc.symm rfl rfl
    all_goals exact hs
  case spLeft =>
    cases hc : s.current
    all_goals simp only [stepEv, onSpLeft, hc]
    case PLAY => exact sessInv_of_eq h0 hs hc.symm rfl rfl
    all_goals exact hs
  case spRight =>
    cases hc : s.current
    all_goals simp only [stepEv, onSpRight, hc]
    case PLAY => exact sessInv_of_eq h0 hs hc.symm rfl rfl
    all_goals exact hs
  case spLeftUp => exact sessInv_of_eq h0 hs rfl rfl rfl
  case spRightUp => exact sessInv_of_eq h0 hs rfl rfl rfl
  case clickL =>
    cases hc : s.current
    all_goals simp only [stepEv, onClickL, hc]
    case MENU =>
      have hcr := (hs.2.2 (Or.inl hc)).2
      have hm : ¬ s.menuIndex = 0 := by
        intro hm0
        simp [startsNewGame, hc, hcr, hm0] at hng
      exact menuConfirm_sess h0 s hs hc hm
    case PAUSE => exact pauseConfirm_sess h0 s hs hc
    case PLAY =>
      unfold launchMouse
      split_ifs
      · exact sessInv_of_eq h0 hs rfl rfl rfl
      · exact hs
    all_goals exact hs
  case clickR =>
    cases hc : s.current
    all_goals simp only [stepEv, onClickR, hc]
    case PLAY =>
      unfold fireBullet
      split_ifs
      · exact sessInv_of_eq h0 hs rfl rfl rfl
      · exact hs
    all_goals exact hs
  case motion x =>
    simp only [stepEv, onMotion]
    split_ifs <;> exact sessInv_of_eq h0 hs rfl rfl rfl
  case reshape w hh2 => exact sessInv_of_eq h0 hs rfl rfl rfl

lemma runEvs_sess (sq : ℚ → ℚ) (evs : List Ev) : ∀ (s : GS) (h0 : ℕ), sessInv h0 s →
    allNoNewGame sq evs s = true → sessInv h0 (runEvs sq evs s) := by
  induction evs with
  | nil =>
    intro s h0 hs _
    exact hs
  | cons e rest ih =>
    intro s h0 hs hall
    simp only [allNoNewGame, Bool.and_eq_true, Bool.not_eq_true'] at hall
    exact ih (stepEv sq e s) h0 (stepEv_sess sq e s h0 hs hall.1) hall.2

lemma newGame_sess (s : GS) : sessInv (newGame s).history.length (newGame s) :=
  sessInv_of_play _ _ (Or.inl rfl) rfl

/-- C2: one history record per finished session, appended exactly at the
transition out of PLAY. (a) From a playing state one simulation step either
stays in PLAY with the history untouched, or moves into WIN or GAMEOVER
(bottom-boundary loss of the last life, the INSTANT_DEATH perk, or clearing
the bricks) while appending exactly one record and clearing canResume.
(b) exitToMenu (the PAUSE menu's exit item) never appends a record. (c) Along
any event trace from newGame that never starts another game, the session
bookkeeping holds: in PLAY/PAUSE the history still has its starting length,
in WIN/GAMEOVER it has exactly one more record, and back in the menu screens
at most one more (the terminal one), never resumable. -/
theorem c2_history_append (sq : ℚ → ℚ) :
    (∀ (dt : ℚ) (s : GS), s.current = Screen.PLAY →
       ((updateGame sq dt s).current = Screen.PLAY ∧
        (updateGame sq dt s).history = s.history) ∨
       (((updateGame sq dt s).current = Screen.WIN ∨
         (updateGame sq dt s).current = Screen.GAMEOVER) ∧
        (∃ r : Run, (updateGame sq dt s).history = s.history ++ [r]) ∧
        (updateGame sq dt s).canResume = false)) ∧
    (∀ s : GS, (exitToMenu s).history = s.history) ∧
    (∀ (s0 : GS) (evs : List Ev),
       allNoNewGame sq evs (newGame s0) = true →
       sessInv (newGame s0).history.length (runEvs sq evs (newGame s0))) :=
  ⟨fun dt s hc => updateGame_hist sq dt s hc,
   fun _ => rfl,
   fun s0 evs hall => runEvs_sess sq evs (newGame s0) _ (newGame_sess s0) hall⟩

/-- C2 witness: the exit-to-menu history frame and the session bookkeeping at
the start of a concrete session. -/
theorem c2_witness :
    (exitToMenu (initState [])).history = (initState []).history ∧
    sessInv (newGame (initState [])).history.length
      (runEvs sqZero [] (newGame (initState []))) :=
  ⟨(c2_history_append sqZero).2.1 (initState []),
   (c2_history_append sqZero).2.2 (initState []) [] rfl⟩

end DXBall
